import Mathlib

/-!
# terraform-provider-wellknownoidc: the two data sources

A shallow embedding of `internal/provider`: the discovery-document data source
(`document_data_source.go`), the JWKS data source (`jwks_data_source.go`) and the
structs they decode into (`discovery_document.go`).

The two `Read` methods are translated statement by statement.  What they call is
modelled as follows.

* The network (`http.Get`, `io.ReadAll`) and the key library (`jwk.ParseKey`,
  `jwk.EncodePEM`) are parameters, collected in `Env`.
* `encoding/json`, `strings.TrimSpace`, `fmt.Sprintf` and Go slices are modelled from
  the documented behaviour of the Go standard library.
* `diag.Diagnostics`, `types.String` (`basetypes.StringValue`), `types.List`
  (`basetypes.ListValue`), `types.ListValueFrom` and `State.Set` are modelled from the
  documented behaviour of terraform-plugin-framework.
* Go strings are Lean strings: bodies and attribute values are Unicode text.
* `tflog.Error` and `defer r.Body.Close()` have no effect on the response and are
  left out.
* A call of `Read` either returns or panics; a panic is an outcome of its own
  (`Outcome.panicked`), since nothing in the program recovers from it.
-/

namespace WellKnownOIDC

/-! ## Go values -/

/-- A Go `error` value, kept as its message. -/
abbrev GoError := String

/-- A Go slice as the program observes it: `none` is the nil slice, `some xs` a
non-nil slice with elements `xs`. -/
abbrev GoSlice (α : Type) := Option (List α)

/-- Go's `append(s, x)`: the result is never nil. -/
def GoSlice.append {α : Type} (s : GoSlice α) (x : α) : GoSlice α :=
  some (s.getD [] ++ [x])

/-- The elements a `for ... range s` visits: none for the nil slice. -/
def GoSlice.range {α : Type} (s : GoSlice α) : List α :=
  s.getD []

/-! ## encoding/json: the scanner

`json.Unmarshal` first validates the whole input with its scanner, a character
automaton with a stack of open containers, and only then decodes.  The automaton
below follows the scanner's states and also builds the value it has read. -/

/-- A JSON value as read from the text.  Numbers keep no value: the structs of this
program have no numeric field, so a number is either skipped or a type mismatch. -/
inductive Json where
  | null
  | bool (b : Bool)
  | num
  | str (s : List Char)
  | arr (xs : List Json)
  | obj (kvs : List (List Char × Json))

/-- One unit of a string under construction: a character, or the value of a
`\uXXXX` escape (which may be half of a surrogate pair). -/
inductive StrUnit where
  | lit (c : Char)
  | esc (n : Nat)

/-- U+FFFD, what Go substitutes for an unpaired surrogate. -/
def replacementChar : Char := Char.ofNat 0xFFFD

/-- Go's `utf16.IsSurrogate`. -/
def isSurrogate (n : Nat) : Bool := 0xD800 ≤ n && n < 0xE000

/-- Turn the units of a string into characters as `unquote` does: a `\u` escape
holding a high surrogate followed at once by a `\u` escape holding a low surrogate
is one character, any other surrogate escape is U+FFFD.  `pending` is a high
surrogate whose partner has not been seen yet. -/
def combineUnitsFrom : Option Nat → List StrUnit → List Char
  | none, [] => []
  | some _, [] => [replacementChar]
  | none, .lit c :: rest => c :: combineUnitsFrom none rest
  | some _, .lit c :: rest => replacementChar :: c :: combineUnitsFrom none rest
  | none, .esc n :: rest =>
    if isSurrogate n then
      if n < 0xDC00 then combineUnitsFrom (some n) rest
      else replacementChar :: combineUnitsFrom none rest
    else Char.ofNat n :: combineUnitsFrom none rest
  | some hi, .esc n :: rest =>
    if isSurrogate n then
      if n < 0xDC00 then replacementChar :: combineUnitsFrom (some n) rest
      else Char.ofNat ((hi - 0xD800) * 0x400 + (n - 0xDC00) + 0x10000) :: combineUnitsFrom none rest
    else replacementChar :: Char.ofNat n :: combineUnitsFrom none rest

/-- The characters of a string read by the scanner. -/
def combineUnits (us : List StrUnit) : List Char := combineUnitsFrom none us

/-- An open container: an array with the elements read so far (latest first), or an
object with the members read so far (latest first) and the key being read. -/
inductive Frame where
  | arr (elems : List Json)
  | obj (members : List (List Char × Json)) (key : List Char)

/-- The states of the scanner. -/
inductive Mode where
  | beginValue
  | beginValueOrEmpty
  | beginStringOrEmpty
  | beginString
  | inString (isKey : Bool) (acc : List StrUnit)
  | inStringEsc (isKey : Bool) (acc : List StrUnit)
  | inStringEscU (isKey : Bool) (acc : List StrUnit) (digits : Nat) (value : Nat)
  | afterKey
  | endValue
  | neg
  | zero
  | int
  | dot
  | frac
  | exp
  | expSign
  | expDigits
  | word (rest : List Nat) (v : Json)
  | endTop

/-- The scanner's state: its mode, the open containers (innermost first), and the
top-level value once it is complete. -/
structure Scan where
  mode : Mode
  stack : List Frame
  result : Option Json

/-- Go's `maxNestingDepth`. -/
def maxNestingDepth : Nat := 10000

/-- The scanner's `isSpace`. -/
def isJsonSpace (c : Nat) : Bool := c == 32 || c == 9 || c == 13 || c == 10

/-- True for `0`..`9`. -/
def isDigit (c : Nat) : Bool := 48 ≤ c && c ≤ 57

/-- The value of a hexadecimal digit, if it is one. -/
def hexVal (c : Nat) : Option Nat :=
  if 48 ≤ c && c ≤ 57 then some (c - 48)
  else if 97 ≤ c && c ≤ 102 then some (c - 87)
  else if 65 ≤ c && c ≤ 70 then some (c - 55)
  else none

/-- A value is complete: hand it to the innermost open container, or make it the
result when none is open. -/
def Scan.finish (stack : List Frame) (v : Json) : Scan :=
  match stack with
  | [] => ⟨.endTop, [], some v⟩
  | .arr es :: fs => ⟨.endValue, .arr (v :: es) :: fs, none⟩
  | .obj ms k :: fs => ⟨.endValue, .obj ((k, v) :: ms) k :: fs, none⟩

/-- A closing bracket or brace: the innermost container, which must be of the
matching kind, is complete. -/
def Scan.close (stack : List Frame) (isObj : Bool) : Option Scan :=
  match stack, isObj with
  | .arr es :: fs, false => some (Scan.finish fs (.arr es.reverse))
  | .obj ms _ :: fs, true => some (Scan.finish fs (.obj ms.reverse))
  | _, _ => none

/-- Open a container, refusing a nesting deeper than `maxNestingDepth`. -/
def Scan.push (stack : List Frame) (f : Frame) (m : Mode) : Option Scan :=
  if stack.length + 1 ≤ maxNestingDepth then some ⟨m, f :: stack, none⟩ else none

/-- The scanner after a complete value (`stateEndValue`, `stateEndTop`). -/
def Scan.stepEnd (s : Scan) (c : Nat) : Option Scan :=
  if isJsonSpace c then some s
  else
    match s.stack with
    | [] => none
    | .arr es :: fs =>
      if c == 44 then some ⟨.beginValue, .arr es :: fs, none⟩
      else if c == 93 then Scan.close s.stack false
      else none
    | .obj ms k :: fs =>
      if c == 44 then some ⟨.beginString, .obj ms k :: fs, none⟩
      else if c == 125 then Scan.close s.stack true
      else none

/-- The scanner at the start of a value (`stateBeginValue`). -/
def Scan.stepBegin (s : Scan) (c : Nat) : Option Scan :=
  if isJsonSpace c then some s
  else if c == 123 then Scan.push s.stack (.obj [] []) .beginStringOrEmpty
  else if c == 91 then Scan.push s.stack (.arr []) .beginValueOrEmpty
  else if c == 34 then some ⟨.inString false [], s.stack, none⟩
  else if c == 45 then some ⟨.neg, s.stack, none⟩
  else if c == 48 then some ⟨.zero, s.stack, none⟩
  else if 49 ≤ c && c ≤ 57 then some ⟨.int, s.stack, none⟩
  else if c == 116 then some ⟨.word [114, 117, 101] (.bool true), s.stack, none⟩
  else if c == 102 then some ⟨.word [97, 108, 115, 101] (.bool false), s.stack, none⟩
  else if c == 110 then some ⟨.word [117, 108, 108] .null, s.stack, none⟩
  else none

/-- A string is complete: a key is stored in its object, any other string is a
value. -/
def Scan.endString (s : Scan) (isKey : Bool) (acc : List StrUnit) : Option Scan :=
  let str := combineUnits acc.reverse
  if isKey then
    match s.stack with
    | .obj ms _ :: fs => some ⟨.afterKey, .obj ms str :: fs, none⟩
    | _ => none
  else some (Scan.finish s.stack (.str str))

/-- The character a one-letter escape stands for. -/
def simpleEscape (c : Nat) : Option Char :=
  if c == 34 || c == 92 || c == 47 then some (Char.ofNat c)
  else if c == 98 then some (Char.ofNat 8)
  else if c == 102 then some (Char.ofNat 12)
  else if c == 110 then some (Char.ofNat 10)
  else if c == 114 then some (Char.ofNat 13)
  else if c == 116 then some (Char.ofNat 9)
  else none

/-- A number is complete at a character that cannot continue it: the number is a
value and the character is read in the state after a value. -/
def Scan.endNumber (s : Scan) (c : Nat) : Option Scan :=
  Scan.stepEnd (Scan.finish s.stack .num) c

/-- One step of the scanner on the character `ch`; `none` is a syntax error. -/
def Scan.step (s : Scan) (ch : Char) : Option Scan :=
  let c := ch.toNat
  match s.mode with
  | .beginValue => Scan.stepBegin s c
  | .beginValueOrEmpty =>
    if isJsonSpace c then some s
    else if c == 93 then Scan.close s.stack false
    else Scan.stepBegin s c
  | .beginStringOrEmpty =>
    if isJsonSpace c then some s
    else if c == 125 then Scan.close s.stack true
    else if c == 34 then some ⟨.inString true [], s.stack, none⟩
    else none
  | .beginString =>
    if isJsonSpace c then some s
    else if c == 34 then some ⟨.inString true [], s.stack, none⟩
    else none
  | .inString isKey acc =>
    if c == 34 then Scan.endString s isKey acc
    else if c == 92 then some ⟨.inStringEsc isKey acc, s.stack, none⟩
    else if c < 32 then none
    else some ⟨.inString isKey (.lit ch :: acc), s.stack, none⟩
  | .inStringEsc isKey acc =>
    if c == 117 then some ⟨.inStringEscU isKey acc 0 0, s.stack, none⟩
    else
      match simpleEscape c with
      | some e => some ⟨.inString isKey (.lit e :: acc), s.stack, none⟩
      | none => none
  | .inStringEscU isKey acc digits value =>
    match hexVal c with
    | none => none
    | some h =>
      if digits == 3 then some ⟨.inString isKey (.esc (value * 16 + h) :: acc), s.stack, none⟩
      else some ⟨.inStringEscU isKey acc (digits + 1) (value * 16 + h), s.stack, none⟩
  | .afterKey =>
    if isJsonSpace c then some s
    else if c == 58 then some ⟨.beginValue, s.stack, none⟩
    else none
  | .endValue => Scan.stepEnd s c
  | .endTop => Scan.stepEnd s c
  | .neg =>
    if c == 48 then some ⟨.zero, s.stack, none⟩
    else if 49 ≤ c && c ≤ 57 then some ⟨.int, s.stack, none⟩
    else none
  | .zero =>
    if c == 46 then some ⟨.dot, s.stack, none⟩
    else if c == 101 || c == 69 then some ⟨.exp, s.stack, none⟩
    else Scan.endNumber s c
  | .int =>
    if isDigit c then some s
    else if c == 46 then some ⟨.dot, s.stack, none⟩
    else if c == 101 || c == 69 then some ⟨.exp, s.stack, none⟩
    else Scan.endNumber s c
  | .dot => if isDigit c then some ⟨.frac, s.stack, none⟩ else none
  | .frac =>
    if isDigit c then some s
    else if c == 101 || c == 69 then some ⟨.exp, s.stack, none⟩
    else Scan.endNumber s c
  | .exp =>
    if c == 43 || c == 45 then some ⟨.expSign, s.stack, none⟩
    else if isDigit c then some ⟨.expDigits, s.stack, none⟩
    else none
  | .expSign => if isDigit c then some ⟨.expDigits, s.stack, none⟩ else none
  | .expDigits => if isDigit c then some s else Scan.endNumber s c
  | .word rest v =>
    match rest with
    | [] => none
    | r :: rs =>
      if c == r then
        match rs with
        | [] => some (Scan.finish s.stack v)
        | _ => some ⟨.word rs v, s.stack, none⟩
      else none

/-- Run the scanner over the input. -/
def Scan.run : Scan → List Char → Option Scan
  | s, [] => some s
  | s, c :: cs =>
    match Scan.step s c with
    | none => none
    | some s2 => Scan.run s2 cs

/-- The end of the input: the top-level value must be complete; a number at top
level is completed by the end of the input. -/
def Scan.eof (s : Scan) : Option Json :=
  match s.mode, s.stack with
  | .endTop, _ => s.result
  | .zero, [] => some .num
  | .int, [] => some .num
  | .frac, [] => some .num
  | .expDigits, [] => some .num
  | _, _ => none

/-- Read one JSON text; `none` is the scanner's syntax error. -/
def parseJSON (body : List Char) : Option Json :=
  match Scan.run ⟨.beginValue, [], none⟩ body with
  | none => none
  | some s => Scan.eof s

/-! ## The structs of `discovery_document.go` -/

/-- The discovery document, `DiscoveryDocument` of `discovery_document.go`; each
field is commented with its `json` tag. -/
structure DiscoveryDocument where
  /-- Tag `issuer`. -/
  Issuer : String
  /-- Tag `jwks_uri`. -/
  JWKSURI : String
  /-- Tag `response_types_supported`. -/
  ResponseTypesSupported : GoSlice String
  /-- Tag `subject_types_supported`. -/
  SubjectTypesSupported : GoSlice String
  /-- Tag `id_token_signing_alg_values_supported`. -/
  IDTokenSigningAlgValuesSupported : GoSlice String
  /-- Tag `claims_supported,omitempty`. -/
  ClaimsSupported : GoSlice String
  /-- Tag `grant_types,omitempty`. -/
  GrantTypes : GoSlice String
  /-- Tag `grant_types_supported,omitempty`. -/
  GrantTypesSupported : GoSlice String
deriving DecidableEq, Repr

/-- One key, `JWKeys` of `discovery_document.go`; the `json` tag of each field is
its name in lower case. -/
structure JWKeys where
  Kty : String
  Alg : String
  Use : String
  Kid : String
  N : String
  E : String
deriving DecidableEq, Repr

/-- The key set, `JWKSDocument` of `discovery_document.go`; the tag of `Keys` is
`keys`. -/
structure JWKSDocument where
  Keys : GoSlice JWKeys
deriving DecidableEq, Repr

/-! ## encoding/json: decoding into the structs

After the scanner has accepted the input, `Unmarshal` stores the value in the
target.  A JSON value of the wrong kind for its target is an `UnmarshalTypeError`;
the decoder then goes on, but `Unmarshal` returns that error, which is all `Read`
looks at, so the model stops at the first mismatch. -/

/-- One character `k` of a member name against one character `n` of a field name,
as Go folds them: equal, or the same ASCII letter in the other case, or the Kelvin
sign for `k`, or the long s for `s`. -/
def foldEq (n k : Nat) : Bool :=
  n == k
  || (97 ≤ n && n ≤ 122 && k + 32 == n)
  || (65 ≤ n && n ≤ 90 && k == n + 32)
  || ((n == 107 || n == 75) && k == 0x212A)
  || ((n == 115 || n == 83) && k == 0x17F)

/-- A member name against a field name, character by character. -/
def foldEqList : List Char → List Char → Bool
  | [], [] => true
  | n :: ns, k :: ks => foldEq n.toNat k.toNat && foldEqList ns ks
  | _, _ => false

/-- Whether the member name `key` selects the field tagged `name`.  No two fields
of one struct of this program fold to the same name, so an exact match and a folded
match never compete. -/
def fieldMatches (name : String) (key : List Char) : Bool :=
  foldEqList name.data key

/-- The error of a JSON value that does not fit its Go target. -/
def typeMismatch : GoError := "json: cannot unmarshal value into Go value"

/-- Store a JSON value in a `string` that holds `old`: a string replaces it, `null`
leaves it, anything else is a type mismatch. -/
def decodeString (old : String) : Json → Except GoError String
  | .str s => .ok (String.mk s)
  | .null => .ok old
  | _ => .error typeMismatch

/-- A slice as the decoder sees it: its elements, and the cells of its backing
array past its length, which an earlier, longer value of a repeated member left
behind and which a later array decoded into the same slice uncovers again. -/
structure SliceBuf (α : Type) where
  elems : List α
  spare : List α

/-- Store the elements of a JSON array one by one, each in the cell the backing
array has at that index (`zero` past its end). -/
def decodeElems {α : Type} (dec : α → Json → Except GoError α) (zero : α) :
    List Json → List α → Except GoError (List α)
  | [], _ => .ok []
  | x :: xs, cells =>
    match dec (cells.headD zero) x with
    | .error e => .error e
    | .ok v =>
      match decodeElems dec zero xs cells.tail with
      | .error e => .error e
      | .ok vs => .ok (v :: vs)

/-- Store a JSON value in a slice field: `null` makes it nil, an empty array makes
it a fresh empty slice, an array decodes its elements into the cells of the old
slice and sets the length, anything else is a type mismatch. -/
def decodeSlice {α : Type} (dec : α → Json → Except GoError α) (zero : α)
    (old : Option (SliceBuf α)) : Json → Except GoError (Option (SliceBuf α))
  | .null => .ok none
  | .arr [] => .ok (some ⟨[], []⟩)
  | .arr (x :: xs) =>
    let cells := match old with
      | none => []
      | some b => b.elems ++ b.spare
    match decodeElems dec zero (x :: xs) cells with
    | .error e => .error e
    | .ok vs => .ok (some ⟨vs, cells.drop (x :: xs).length⟩)
  | _ => .error typeMismatch

/-- What the program can see of a decoded slice. -/
def SliceBuf.visible {α : Type} : Option (SliceBuf α) → GoSlice α
  | none => none
  | some b => some b.elems

/-- The zero value of `JWKeys`. -/
def JWKeys.zero : JWKeys := ⟨"", "", "", "", "", ""⟩

/-- Store one object member in a `JWKeys`; a name that selects no field is
skipped. -/
def JWKeys.setField (k : JWKeys) (key : List Char) (v : Json) : Except GoError JWKeys :=
  if fieldMatches "kty" key then (decodeString k.Kty v).map (fun s => { k with Kty := s })
  else if fieldMatches "alg" key then (decodeString k.Alg v).map (fun s => { k with Alg := s })
  else if fieldMatches "use" key then (decodeString k.Use v).map (fun s => { k with Use := s })
  else if fieldMatches "kid" key then (decodeString k.Kid v).map (fun s => { k with Kid := s })
  else if fieldMatches "n" key then (decodeString k.N v).map (fun s => { k with N := s })
  else if fieldMatches "e" key then (decodeString k.E v).map (fun s => { k with E := s })
  else .ok k

/-- Store the members of an object, in the order of the text. -/
def decodeMembers {σ : Type} (set : σ → List Char → Json → Except GoError σ) :
    σ → List (List Char × Json) → Except GoError σ
  | st, [] => .ok st
  | st, (key, v) :: rest =>
    match set st key v with
    | .error e => .error e
    | .ok st2 => decodeMembers set st2 rest

/-- Store a JSON value in a `JWKeys` that holds `old`: an object sets the fields it
names, `null` leaves the struct as it is, anything else is a type mismatch. -/
def JWKeys.decode (old : JWKeys) : Json → Except GoError JWKeys
  | .obj kvs => decodeMembers JWKeys.setField old kvs
  | .null => .ok old
  | _ => .error typeMismatch

/-- The discovery document while it is being decoded: the slices with their backing
arrays. -/
structure DiscoveryDocumentBuf where
  Issuer : String
  JWKSURI : String
  ResponseTypesSupported : Option (SliceBuf String)
  SubjectTypesSupported : Option (SliceBuf String)
  IDTokenSigningAlgValuesSupported : Option (SliceBuf String)
  ClaimsSupported : Option (SliceBuf String)
  GrantTypes : Option (SliceBuf String)
  GrantTypesSupported : Option (SliceBuf String)

/-- The zero value of `DiscoveryDocument`, as allocated for a nil pointer. -/
def DiscoveryDocumentBuf.zero : DiscoveryDocumentBuf :=
  ⟨"", "", none, none, none, none, none, none⟩

/-- The decoded document as the program sees it. -/
def DiscoveryDocumentBuf.toDocument (d : DiscoveryDocumentBuf) : DiscoveryDocument :=
  { Issuer := d.Issuer
    JWKSURI := d.JWKSURI
    ResponseTypesSupported := SliceBuf.visible d.ResponseTypesSupported
    SubjectTypesSupported := SliceBuf.visible d.SubjectTypesSupported
    IDTokenSigningAlgValuesSupported := SliceBuf.visible d.IDTokenSigningAlgValuesSupported
    ClaimsSupported := SliceBuf.visible d.ClaimsSupported
    GrantTypes := SliceBuf.visible d.GrantTypes
    GrantTypesSupported := SliceBuf.visible d.GrantTypesSupported }

/-- Store a JSON value in a `[]string` field. -/
def decodeStrings (old : Option (SliceBuf String)) (v : Json) :
    Except GoError (Option (SliceBuf String)) :=
  decodeSlice decodeString "" old v

/-- Store one object member in a `DiscoveryDocument`, by the `json` tags of
`discovery_document.go`; a name that selects no field is skipped. -/
def DiscoveryDocumentBuf.setField (d : DiscoveryDocumentBuf) (key : List Char) (v : Json) :
    Except GoError DiscoveryDocumentBuf :=
  if fieldMatches "issuer" key then
    (decodeString d.Issuer v).map (fun s => { d with Issuer := s })
  else if fieldMatches "jwks_uri" key then
    (decodeString d.JWKSURI v).map (fun s => { d with JWKSURI := s })
  else if fieldMatches "response_types_supported" key then
    (decodeStrings d.ResponseTypesSupported v).map
      (fun s => { d with ResponseTypesSupported := s })
  else if fieldMatches "subject_types_supported" key then
    (decodeStrings d.SubjectTypesSupported v).map
      (fun s => { d with SubjectTypesSupported := s })
  else if fieldMatches "id_token_signing_alg_values_supported" key then
    (decodeStrings d.IDTokenSigningAlgValuesSupported v).map
      (fun s => { d with IDTokenSigningAlgValuesSupported := s })
  else if fieldMatches "claims_supported" key then
    (decodeStrings d.ClaimsSupported v).map (fun s => { d with ClaimsSupported := s })
  else if fieldMatches "grant_types" key then
    (decodeStrings d.GrantTypes v).map (fun s => { d with GrantTypes := s })
  else if fieldMatches "grant_types_supported" key then
    (decodeStrings d.GrantTypesSupported v).map (fun s => { d with GrantTypesSupported := s })
  else .ok d

/-- The scanner's error. -/
def syntaxError : GoError := "json: syntax error"

/-- The call `json.Unmarshal(b, &discoveryDocument)` of `DocumentDataSource.Read`,
where `discoveryDocument` is a nil `*DiscoveryDocument`: the error, or the pointer
afterwards.  The JSON literal `null` leaves the pointer nil and is no error; an
object allocates the struct and fills it; any other value is a type mismatch. -/
def json.UnmarshalDiscoveryDocument (b : String) : Except GoError (Option DiscoveryDocument) :=
  match parseJSON b.data with
  | none => .error syntaxError
  | some .null => .ok none
  | some (.obj kvs) =>
    match decodeMembers DiscoveryDocumentBuf.setField DiscoveryDocumentBuf.zero kvs with
    | .error e => .error e
    | .ok d => .ok (some d.toDocument)
  | some _ => .error typeMismatch

/-- Store one object member in a `JWKSDocument`, whose one field is tagged `keys`. -/
def JWKSDocument.setField (d : Option (SliceBuf JWKeys)) (key : List Char) (v : Json) :
    Except GoError (Option (SliceBuf JWKeys)) :=
  if fieldMatches "keys" key then decodeSlice JWKeys.decode JWKeys.zero d v
  else .ok d

/-- The call `json.Unmarshal(b, &jwksDocument)` of `JWKSDataSource.Read`, where
`jwksDocument` is a nil `*JWKSDocument`: the error, or the pointer afterwards. -/
def json.UnmarshalJWKSDocument (b : String) : Except GoError (Option JWKSDocument) :=
  match parseJSON b.data with
  | none => .error syntaxError
  | some .null => .ok none
  | some (.obj kvs) =>
    match decodeMembers JWKSDocument.setField none kvs with
    | .error e => .error e
    | .ok d => .ok (some ⟨SliceBuf.visible d⟩)
  | some _ => .error typeMismatch

/-! ## encoding/json: encoding a key -/

/-- The digit of `n % 16` in lower-case hexadecimal. -/
def hexDigit (n : Nat) : Char :=
  if n % 16 < 10 then Char.ofNat (48 + n % 16) else Char.ofNat (87 + n % 16)

/-- One character of a string as `json.Marshal` writes it, with HTML escaping on:
the quote, the backslash and the control characters are escaped, and so are `<`,
`>`, `&`, U+2028 and U+2029.  Backspace and form feed are written `\b` and `\f`, as
Go has done since 1.22 (before, `\u0008` and `\u000c`). -/
def escapeChar (c : Char) : List Char :=
  let n := c.toNat
  let bs := Char.ofNat 92
  if n == 34 || n == 92 then [bs, c]
  else if n == 8 then [bs, Char.ofNat 98]
  else if n == 12 then [bs, Char.ofNat 102]
  else if n == 10 then [bs, Char.ofNat 110]
  else if n == 13 then [bs, Char.ofNat 114]
  else if n == 9 then [bs, Char.ofNat 116]
  else if n < 32 || n == 60 || n == 62 || n == 38 then
    [bs, Char.ofNat 117, Char.ofNat 48, Char.ofNat 48, hexDigit (n / 16), hexDigit n]
  else if n == 0x2028 || n == 0x2029 then
    [bs, Char.ofNat 117, Char.ofNat 50, Char.ofNat 48, Char.ofNat 50, hexDigit n]
  else [c]

/-- A string as a JSON string. -/
def jsonQuote (s : String) : String :=
  "\"" ++ String.mk (s.data.flatMap escapeChar) ++ "\""

/-- The call `json.Marshal(k)` for a `JWKeys`: the object with the six fields in
the order of the struct, and no error, since a struct of strings always encodes. -/
def json.MarshalJWKeys (k : JWKeys) : String × Option GoError :=
  ("\x7b\"kty\":" ++ jsonQuote k.Kty ++ ",\"alg\":" ++ jsonQuote k.Alg
    ++ ",\"use\":" ++ jsonQuote k.Use ++ ",\"kid\":" ++ jsonQuote k.Kid
    ++ ",\"n\":" ++ jsonQuote k.N ++ ",\"e\":" ++ jsonQuote k.E ++ "\x7d", none)

/-! ## strings -/

/-- Go's `unicode.IsSpace`. -/
def isUnicodeSpace (n : Nat) : Bool :=
  (9 ≤ n && n ≤ 13) || n == 32 || n == 0x85 || n == 0xA0 || n == 0x1680
  || (0x2000 ≤ n && n ≤ 0x200A) || n == 0x2028 || n == 0x2029 || n == 0x202F
  || n == 0x205F || n == 0x3000

/-- Go's `strings.TrimSpace`: the string without its leading and trailing white
space. -/
def strings.TrimSpace (s : String) : String :=
  let sp := fun (c : Char) => isUnicodeSpace c.toNat
  String.mk ((s.data.dropWhile sp).reverse.dropWhile sp).reverse

/-! ## terraform-plugin-framework -/

/-- The severity of a diagnostic. -/
inductive diag.Severity where
  | Error
  | Warning
deriving DecidableEq, Repr

/-- A diagnostic: severity, summary and detail. -/
structure diag.Diagnostic where
  severity : diag.Severity
  summary : String
  detail : String
deriving DecidableEq, Repr

/-- The collection `diag.Diagnostics`, in the order of insertion. -/
abbrev diag.Diagnostics := List diag.Diagnostic

/-- The diagnostic `diag.NewErrorDiagnostic(summary, detail)`. -/
def diag.NewErrorDiagnostic (summary detail : String) : diag.Diagnostic :=
  ⟨.Error, summary, detail⟩

/-- The method `Diagnostics.Append`: each diagnostic is added at the end unless an
equal one is already present. -/
def diag.Diagnostics.Append (diags : diag.Diagnostics) (more : List diag.Diagnostic) :
    diag.Diagnostics :=
  more.foldl (fun acc d => if d ∈ acc then acc else acc ++ [d]) diags

/-- The method `Diagnostics.AddError`: append an error diagnostic. -/
def diag.Diagnostics.AddError (diags : diag.Diagnostics) (summary detail : String) :
    diag.Diagnostics :=
  diag.Diagnostics.Append diags [diag.NewErrorDiagnostic summary detail]

/-- The method `Diagnostics.HasError`: whether some diagnostic is an error. -/
def diag.Diagnostics.HasError (diags : diag.Diagnostics) : Bool :=
  diags.any (fun d => d.severity == .Error)

/-- A string attribute value, `types.String`: null, unknown, or a known string. -/
inductive basetypes.StringValue where
  | null
  | unknown
  | known (value : String)
deriving DecidableEq, Repr

/-- A list attribute value with string elements, `types.List`: null, unknown, or a
known list of elements. -/
inductive basetypes.ListValue where
  | null
  | unknown
  | known (elements : List basetypes.StringValue)
deriving DecidableEq, Repr

/-- The constructor `types.StringValue(s)` of a known string. -/
def types.StringValue (s : String) : basetypes.StringValue := .known s

/-- The method `ValueString`: the known string, and the empty string for null and
unknown. -/
def basetypes.StringValue.ValueString : basetypes.StringValue → String
  | .known s => s
  | _ => ""

/-- The call `types.ListValueFrom(ctx, types.StringType, elements)` on a `[]string`:
the framework turns a nil slice into the null list and any other slice into the
known list of its elements; for strings it reports no diagnostic. -/
def types.ListValueFrom (elements : GoSlice String) :
    basetypes.ListValue × diag.Diagnostics :=
  match elements with
  | none => (.null, [])
  | some xs => (.known (xs.map types.StringValue), [])

/-- The configuration of a request as `Config.Get(ctx, &data)` decodes it: the model
it fills in and the diagnostics it returns. -/
structure tfsdk.Config (M : Type) where
  data : M
  diags : diag.Diagnostics

/-- The request `datasource.ReadRequest`. -/
structure datasource.ReadRequest (M : Type) where
  Config : tfsdk.Config M

/-- The response `datasource.ReadResponse`.  `State` is `none` until `State.Set`
stores a model. -/
structure datasource.ReadResponse (M : Type) where
  State : Option M
  Diagnostics : diag.Diagnostics
deriving DecidableEq, Repr

/-- The call `State.Set(ctx, &data)` with a model of the schema's own shape: the
state becomes the model, and no diagnostic is returned. -/
def tfsdk.State.Set {M : Type} (data : M) : Option M × diag.Diagnostics :=
  (some data, [])

/-! ## The world outside -/

/-- An HTTP response as `Read` uses it: the status code, which `Read` never looks
at, and what `io.ReadAll(r.Body)` yields, the body or a read error. -/
structure http.Response where
  StatusCode : Nat
  Body : Except GoError String

/-- The call `io.ReadAll(r.Body)`. -/
def io.ReadAll (body : Except GoError String) : Except GoError String := body

/-- The key library `github.com/lestrrat-go/jwx/v2/jwk` as the program uses it: its
key type and the two calls of `convertJkwsToPem`. -/
structure jwk.Library where
  /-- The type `jwk.Key`. -/
  Key : Type
  /-- The call `jwk.ParseKey(key)`. -/
  ParseKey : String → Except GoError Key
  /-- The call `jwk.EncodePEM(set)`. -/
  EncodePEM : Key → Except GoError String

/-- What the program does not define itself: the network behind `http.Get`, and the
key library. -/
structure Env where
  /-- The call `http.Get(url)`. -/
  httpGet : String → Except GoError http.Response
  /-- The package `jwk`. -/
  jwk : jwk.Library

/-- How a call of `Read` ends: it returns, with the response as it has left it, or
it panics (a nil pointer dereference), which takes the provider process down. -/
inductive Outcome (M : Type) where
  | returned (resp : datasource.ReadResponse M)
  | panicked
deriving DecidableEq, Repr

/-- A call of `Read`: the URLs passed to `http.Get`, in order, and how the call
ended. -/
structure Run (M : Type) where
  gets : List String
  outcome : Outcome M
deriving DecidableEq, Repr

/-! ## `document_data_source.go` -/

/-- The model `DocumentDataSourceModel`; each field is commented with its `tfsdk`
tag. -/
structure DocumentDataSourceModel where
  /-- Tag `id`. -/
  ID : basetypes.StringValue
  /-- Tag `discovery_url`. -/
  DiscoveryURL : basetypes.StringValue
  /-- Tag `issuer`. -/
  Issuer : basetypes.StringValue
  /-- Tag `jwks_uri`. -/
  JWKSURI : basetypes.StringValue
  /-- Tag `response_types_supported`. -/
  ResponseTypesSupported : basetypes.ListValue
  /-- Tag `subject_types_supported`. -/
  SubjectTypesSupported : basetypes.ListValue
  /-- Tag `id_token_signing_alg_values_supported`. -/
  IDTokenSigningAlgValuesSupported : basetypes.ListValue
  /-- Tag `claims_supported`. -/
  ClaimsSupported : basetypes.ListValue
  /-- Tag `grant_types`. -/
  GrantTypes : basetypes.ListValue
deriving DecidableEq, Repr

/-- The method `DocumentDataSource.Read`, statement by statement. -/
def DocumentDataSource.Read (env : Env)
    (req : datasource.ReadRequest DocumentDataSourceModel)
    (resp : datasource.ReadResponse DocumentDataSourceModel) :
    Run DocumentDataSourceModel :=
  -- resp.Diagnostics.Append(req.Config.Get(ctx, &data)...)
  let data := req.Config.data
  let resp := { resp with Diagnostics := resp.Diagnostics.Append req.Config.diags }
  if resp.Diagnostics.HasError then ⟨[], .returned resp⟩
  else
    -- fmt.Sprintf("%s/.well-known/openid-configuration", data.DiscoveryURL.ValueString())
    let url := data.DiscoveryURL.ValueString ++ "/.well-known/openid-configuration"
    match env.httpGet url with
    | .error _ =>
      let diags := resp.Diagnostics.AddError "Unable to get the discovery document"
        "Provided URL is not valid or not available."
      ⟨[url], .returned { resp with Diagnostics := diags }⟩
    | .ok r =>
      match io.ReadAll r.Body with
      | .error _ =>
        let diags := resp.Diagnostics.AddError "Unable to read the discovery document"
          "Document found is not readable."
        ⟨[url], .returned { resp with Diagnostics := diags }⟩
      | .ok b =>
        match json.UnmarshalDiscoveryDocument b with
        | .error _ =>
          let diags := resp.Diagnostics.AddError "Unable to decode the discovery document"
            "Document found is not in the right JSON format."
          ⟨[url], .returned { resp with Diagnostics := diags }⟩
        -- discoveryDocument.Issuer with discoveryDocument == nil
        | .ok none => ⟨[url], .panicked⟩
        | .ok (some discoveryDocument) =>
          let data := { data with ID := data.DiscoveryURL }
          let data := { data with Issuer := types.StringValue discoveryDocument.Issuer }
          let data := { data with JWKSURI := types.StringValue discoveryDocument.JWKSURI }
          let (v, diagnostics) := types.ListValueFrom discoveryDocument.ClaimsSupported
          let data := { data with ClaimsSupported := v }
          let resp := { resp with Diagnostics := resp.Diagnostics.Append diagnostics }
          let (v, diagnostics) := types.ListValueFrom discoveryDocument.ResponseTypesSupported
          let data := { data with ResponseTypesSupported := v }
          let resp := { resp with Diagnostics := resp.Diagnostics.Append diagnostics }
          let (v, diagnostics) := types.ListValueFrom discoveryDocument.SubjectTypesSupported
          let data := { data with SubjectTypesSupported := v }
          let resp := { resp with Diagnostics := resp.Diagnostics.Append diagnostics }
          let (v, diagnostics) :=
            types.ListValueFrom discoveryDocument.IDTokenSigningAlgValuesSupported
          let data := { data with IDTokenSigningAlgValuesSupported := v }
          let resp := { resp with Diagnostics := resp.Diagnostics.Append diagnostics }
          let (v, diagnostics) := types.ListValueFrom discoveryDocument.GrantTypes
          let data := { data with GrantTypes := v }
          let resp := { resp with Diagnostics := resp.Diagnostics.Append diagnostics }
          -- resp.Diagnostics.Append(resp.State.Set(ctx, &data)...)
          let (state, diagnostics) := tfsdk.State.Set data
          ⟨[url], .returned
            { State := state, Diagnostics := resp.Diagnostics.Append diagnostics }⟩

/-! ## `jwks_data_source.go` -/

/-- The model `JWKSDataSourceModel`; each field is commented with its `tfsdk` tag. -/
structure JWKSDataSourceModel where
  /-- Tag `id`. -/
  ID : basetypes.StringValue
  /-- Tag `jwks_uri`. -/
  JWKSURI : basetypes.StringValue
  /-- Tag `keys`. -/
  Keys : basetypes.ListValue
  /-- Tag `pem`. -/
  PEM : basetypes.ListValue
deriving DecidableEq, Repr

/-- The function `convertJkwsToPem`: the PEM text of a key given as JSON, or the
empty byte slice and the error of the step that failed. -/
def convertJkwsToPem (lib : jwk.Library) (key : String) : String × Option GoError :=
  match lib.ParseKey key with
  | .error err => ("", some err)
  | .ok set =>
    match lib.EncodePEM set with
    | .error err => ("", some err)
    | .ok pem => (pem, none)

/-- The variables the loop of `JWKSDataSource.Read` updates. -/
structure LoopState where
  Diagnostics : diag.Diagnostics
  keysAsString : GoSlice String
  pemAsString : GoSlice String
deriving DecidableEq, Repr

/-- The body of the loop `for _, k := range jwksDocument.Keys`.  Neither error
branch leaves the loop: both slices grow by one element in every iteration. -/
def JWKSDataSource.loopBody (lib : jwk.Library) (st : LoopState) (k : JWKeys) : LoopState :=
  let (key, err) := json.MarshalJWKeys k
  let diags := match err with
    | some _ => st.Diagnostics.AddError "Unable to encode the JWKS key as string"
        "The JSON key can't be converted to string."
    | none => st.Diagnostics
  let keysAsString := st.keysAsString.append key
  let (pem, err) := convertJkwsToPem lib key
  let diags := match err with
    | some _ => diags.AddError "Unable to convert JWKS keys as PEM"
        "The JSON key can't be converted to PEM."
    | none => diags
  let pemAsString := st.pemAsString.append (strings.TrimSpace pem)
  ⟨diags, keysAsString, pemAsString⟩

/-- The whole loop over the keys of the document, from the variables `st`. -/
def JWKSDataSource.loop (lib : jwk.Library) (keys : GoSlice JWKeys) (st : LoopState) :
    LoopState :=
  keys.range.foldl (JWKSDataSource.loopBody lib) st

/-- The method `JWKSDataSource.Read`, statement by statement. -/
def JWKSDataSource.Read (env : Env)
    (req : datasource.ReadRequest JWKSDataSourceModel)
    (resp : datasource.ReadResponse JWKSDataSourceModel) :
    Run JWKSDataSourceModel :=
  -- resp.Diagnostics.Append(req.Config.Get(ctx, &data)...)
  let data := req.Config.data
  let resp := { resp with Diagnostics := resp.Diagnostics.Append req.Config.diags }
  if resp.Diagnostics.HasError then ⟨[], .returned resp⟩
  else
    let url := data.JWKSURI.ValueString
    match env.httpGet url with
    | .error _ =>
      let diags := resp.Diagnostics.AddError "Unable to get the JWKS document"
        "Provided URL is not valid or not available."
      ⟨[url], .returned { resp with Diagnostics := diags }⟩
    | .ok r =>
      match io.ReadAll r.Body with
      | .error _ =>
        let diags := resp.Diagnostics.AddError "Unable to read the JWKS document"
          "Document found is not readable."
        ⟨[url], .returned { resp with Diagnostics := diags }⟩
      | .ok b =>
        match json.UnmarshalJWKSDocument b with
        | .error _ =>
          let diags := resp.Diagnostics.AddError "Unable to decode the JWKS document"
            "Document found is not in the right JSON format."
          ⟨[url], .returned { resp with Diagnostics := diags }⟩
        -- jwksDocument.Keys with jwksDocument == nil
        | .ok none => ⟨[url], .panicked⟩
        | .ok (some jwksDocument) =>
          -- var keysAsString []string; var pemAsString []string
          let st := JWKSDataSource.loop env.jwk jwksDocument.Keys ⟨resp.Diagnostics, none, none⟩
          let resp := { resp with Diagnostics := st.Diagnostics }
          if resp.Diagnostics.HasError then ⟨[url], .returned resp⟩
          else
            let data := { data with ID := data.JWKSURI }
            let (v, diagnostics) := types.ListValueFrom st.keysAsString
            let data := { data with Keys := v }
            let resp := { resp with Diagnostics := resp.Diagnostics.Append diagnostics }
            let (v, diagnostics) := types.ListValueFrom st.pemAsString
            let data := { data with PEM := v }
            let resp := { resp with Diagnostics := resp.Diagnostics.Append diagnostics }
            -- resp.Diagnostics.Append(resp.State.Set(ctx, &data)...)
            let (state, diagnostics) := tfsdk.State.Set data
            ⟨[url], .returned
              { State := state, Diagnostics := resp.Diagnostics.Append diagnostics }⟩

/-! ## Example inputs -/

/-- A key library for examples.  It accepts a key whose JSON text starts with
`{"kty":"RSA"`, rejects every other key, and encodes each key it accepts as the
same PEM block, which ends in a line feed. -/
def exampleLibrary : jwk.Library :=
  { Key := String
    ParseKey := fun key =>
      if key.data.take 12 = "\x7b\"kty\":\"RSA\"".data then .ok key
      else .error "invalid key type from JSON"
    EncodePEM := fun _ =>
      .ok "-----BEGIN PUBLIC KEY-----\nMIIBIjANBgkq\n-----END PUBLIC KEY-----\n" }

/-- An environment for examples: every GET is answered with the given status code
and body, and the key library is `exampleLibrary`. -/
def exampleEnv (status : Nat) (body : String) : Env :=
  { httpGet := fun _ => .ok ⟨status, .ok body⟩
    jwk := exampleLibrary }

/-- The response as the framework hands it to `Read`: no state set, no
diagnostics. -/
def emptyResponse (M : Type) : datasource.ReadResponse M := ⟨none, []⟩

/-- A request of the document data source whose configuration sets `discovery_url`
to `u` and decodes without diagnostics. -/
def documentRequest (u : String) : datasource.ReadRequest DocumentDataSourceModel :=
  ⟨⟨⟨.null, types.StringValue u, .null, .null, .null, .null, .null, .null, .null⟩, []⟩⟩

/-- A request of the JWKS data source whose configuration sets `jwks_uri` to `u` and
decodes without diagnostics. -/
def jwksRequest (u : String) : datasource.ReadRequest JWKSDataSourceModel :=
  ⟨⟨⟨.null, types.StringValue u, .null, .null⟩, []⟩⟩

/-- A discovery document in the shape real providers publish: the grant types are
under `grant_types_supported`, and there is no `claims_supported` member. -/
def exampleDiscovery : String :=
  "\x7b\"issuer\":\"https://accounts.google.com\","
  ++ "\"jwks_uri\":\"https://www.googleapis.com/oauth2/v3/certs\","
  ++ "\"response_types_supported\":[\"code\",\"id_token\"],"
  ++ "\"subject_types_supported\":[\"public\"],"
  ++ "\"id_token_signing_alg_values_supported\":[\"RS256\"],"
  ++ "\"grant_types_supported\":[\"authorization_code\",\"refresh_token\"]\x7d"

/-- A discovery document with the two URL members and nothing else: no list member,
and no grant types under either name. -/
def exampleBareDiscovery : String :=
  "\x7b\"issuer\":\"https://accounts.google.com\","
  ++ "\"jwks_uri\":\"https://www.googleapis.com/oauth2/v3/certs\"\x7d"

/-- A document that names its issuer twice, the second time with the member name in
upper case. -/
def exampleTwoIssuers : String :=
  "\x7b\"issuer\":\"https://accounts.google.com\","
  ++ "\"ISSUER\":\"https://other.example\"\x7d"

/-- A key set with two RSA keys. -/
def exampleJWKS : String :=
  "\x7b\"keys\":[\x7b\"kty\":\"RSA\",\"alg\":\"RS256\",\"use\":\"sig\",\"kid\":\"k1\","
  ++ "\"n\":\"u1W\",\"e\":\"AQAB\"\x7d,"
  ++ "\x7b\"kty\":\"RSA\",\"alg\":\"RS256\",\"use\":\"sig\",\"kid\":\"k2\","
  ++ "\"n\":\"x9Q\",\"e\":\"AQAB\"\x7d]\x7d"

/-- The two keys of `exampleJWKS`. -/
def exampleKeys : List JWKeys :=
  [⟨"RSA", "RS256", "sig", "k1", "u1W", "AQAB"⟩, ⟨"RSA", "RS256", "sig", "k2", "x9Q", "AQAB"⟩]

/-- A key set of three keys of which the second, an EC key, is one the example key
library rejects. -/
def exampleMixedJWKS : String :=
  "\x7b\"keys\":[\x7b\"kty\":\"RSA\",\"kid\":\"k1\"\x7d,\x7b\"kty\":\"EC\",\"kid\":\"k2\"\x7d,"
  ++ "\x7b\"kty\":\"RSA\",\"kid\":\"k3\"\x7d]\x7d"

/-- The three keys of `exampleMixedJWKS`. -/
def exampleMixedKeys : List JWKeys :=
  [⟨"RSA", "", "", "k1", "", ""⟩, ⟨"EC", "", "", "k2", "", ""⟩, ⟨"RSA", "", "", "k3", "", ""⟩]

/-- The state the document data source writes for `exampleDiscovery` when
`discovery_url` is `u`. -/
def exampleDocumentState (u : String) : DocumentDataSourceModel :=
  { ID := types.StringValue u
    DiscoveryURL := types.StringValue u
    Issuer := types.StringValue "https://accounts.google.com"
    JWKSURI := types.StringValue "https://www.googleapis.com/oauth2/v3/certs"
    ResponseTypesSupported := .known [types.StringValue "code", types.StringValue "id_token"]
    SubjectTypesSupported := .known [types.StringValue "public"]
    IDTokenSigningAlgValuesSupported := .known [types.StringValue "RS256"]
    ClaimsSupported := .null
    GrantTypes := .null }

/-- The state the JWKS data source writes for `exampleJWKS` in the example
environment when `jwks_uri` is `u`. -/
def exampleJWKSState (u : String) : JWKSDataSourceModel :=
  { ID := types.StringValue u
    JWKSURI := types.StringValue u
    Keys := .known (exampleKeys.map (fun k => types.StringValue (json.MarshalJWKeys k).1))
    PEM := .known
      [types.StringValue "-----BEGIN PUBLIC KEY-----\nMIIBIjANBgkq\n-----END PUBLIC KEY-----",
       types.StringValue "-----BEGIN PUBLIC KEY-----\nMIIBIjANBgkq\n-----END PUBLIC KEY-----"] }

/-! ## Diagnostics -/

theorem diag.append_nil (d : diag.Diagnostics) : diag.Diagnostics.Append d [] = d := rfl

theorem diag.append_singleton (d : diag.Diagnostics) (x : diag.Diagnostic) :
    diag.Diagnostics.Append d [x] = if x ∈ d then d else d ++ [x] := rfl

theorem diag.hasError_of_mem (d : diag.Diagnostics) (s t : String)
    (h : diag.NewErrorDiagnostic s t ∈ d) : d.HasError = true :=
  List.any_eq_true.mpr ⟨_, h, rfl⟩

theorem diag.mem_addError (d : diag.Diagnostics) (s t : String) :
    diag.NewErrorDiagnostic s t ∈ diag.Diagnostics.AddError d s t := by
  unfold diag.Diagnostics.AddError
  rw [diag.append_singleton]
  by_cases h : diag.NewErrorDiagnostic s t ∈ d
  · rw [if_pos h]; exact h
  · rw [if_neg h]; simp

theorem diag.mem_addError_of_mem (d : diag.Diagnostics) (s t : String) (x : diag.Diagnostic)
    (hx : x ∈ d) : x ∈ diag.Diagnostics.AddError d s t := by
  unfold diag.Diagnostics.AddError
  rw [diag.append_singleton]
  by_cases h : diag.NewErrorDiagnostic s t ∈ d
  · rw [if_pos h]; exact hx
  · rw [if_neg h]; exact List.mem_append_left _ hx

theorem diag.hasError_addError (d : diag.Diagnostics) (s t : String) :
    (diag.Diagnostics.AddError d s t).HasError = true :=
  diag.hasError_of_mem _ s t (diag.mem_addError d s t)

theorem diag.not_mem_of_hasError_false (d : diag.Diagnostics) (s t : String)
    (h : d.HasError = false) : diag.NewErrorDiagnostic s t ∉ d := by
  intro hm
  rw [diag.hasError_of_mem d s t hm] at h
  exact Bool.noConfusion h

theorem diag.addError_of_hasError_false (d : diag.Diagnostics) (s t : String)
    (h : d.HasError = false) :
    diag.Diagnostics.AddError d s t = d ++ [diag.NewErrorDiagnostic s t] := by
  unfold diag.Diagnostics.AddError
  rw [diag.append_singleton, if_neg (diag.not_mem_of_hasError_false d s t h)]

theorem types.listValueFrom_diags (xs : GoSlice String) : (types.ListValueFrom xs).2 = [] := by
  cases xs <;> rfl

/-! ## The paths through `DocumentDataSource.Read` -/

theorem DocumentDataSource.read_document_config_error (env : Env)
    (req : datasource.ReadRequest DocumentDataSourceModel)
    (resp : datasource.ReadResponse DocumentDataSourceModel)
    (h : (resp.Diagnostics.Append req.Config.diags).HasError = true) :
    DocumentDataSource.Read env req resp
      = ⟨[], .returned ⟨resp.State, resp.Diagnostics.Append req.Config.diags⟩⟩ := by
  simp [DocumentDataSource.Read, h]

theorem DocumentDataSource.read_document_get_error (env : Env)
    (req : datasource.ReadRequest DocumentDataSourceModel)
    (resp : datasource.ReadResponse DocumentDataSourceModel) (e : GoError)
    (h : (resp.Diagnostics.Append req.Config.diags).HasError = false)
    (hget : env.httpGet (req.Config.data.DiscoveryURL.ValueString
      ++ "/.well-known/openid-configuration") = .error e) :
    DocumentDataSource.Read env req resp
      = ⟨[req.Config.data.DiscoveryURL.ValueString ++ "/.well-known/openid-configuration"],
         .returned ⟨resp.State, (resp.Diagnostics.Append req.Config.diags).AddError
           "Unable to get the discovery document"
           "Provided URL is not valid or not available."⟩⟩ := by
  simp [DocumentDataSource.Read, h, hget]

theorem DocumentDataSource.read_document_body_error (env : Env)
    (req : datasource.ReadRequest DocumentDataSourceModel)
    (resp : datasource.ReadResponse DocumentDataSourceModel) (r : http.Response) (e : GoError)
    (h : (resp.Diagnostics.Append req.Config.diags).HasError = false)
    (hget : env.httpGet (req.Config.data.DiscoveryURL.ValueString
      ++ "/.well-known/openid-configuration") = .ok r)
    (hbody : r.Body = .error e) :
    DocumentDataSource.Read env req resp
      = ⟨[req.Config.data.DiscoveryURL.ValueString ++ "/.well-known/openid-configuration"],
         .returned ⟨resp.State, (resp.Diagnostics.Append req.Config.diags).AddError
           "Unable to read the discovery document"
           "Document found is not readable."⟩⟩ := by
  simp [DocumentDataSource.Read, h, hget, hbody, io.ReadAll]

theorem DocumentDataSource.read_document_decode_error (env : Env)
    (req : datasource.ReadRequest DocumentDataSourceModel)
    (resp : datasource.ReadResponse DocumentDataSourceModel) (r : http.Response)
    (b : String) (e : GoError)
    (h : (resp.Diagnostics.Append req.Config.diags).HasError = false)
    (hget : env.httpGet (req.Config.data.DiscoveryURL.ValueString
      ++ "/.well-known/openid-configuration") = .ok r)
    (hbody : r.Body = .ok b)
    (hdec : json.UnmarshalDiscoveryDocument b = .error e) :
    DocumentDataSource.Read env req resp
      = ⟨[req.Config.data.DiscoveryURL.ValueString ++ "/.well-known/openid-configuration"],
         .returned ⟨resp.State, (resp.Diagnostics.Append req.Config.diags).AddError
           "Unable to decode the discovery document"
           "Document found is not in the right JSON format."⟩⟩ := by
  simp [DocumentDataSource.Read, h, hget, hbody, hdec, io.ReadAll]

theorem DocumentDataSource.read_document_nil (env : Env)
    (req : datasource.ReadRequest DocumentDataSourceModel)
    (resp : datasource.ReadResponse DocumentDataSourceModel) (r : http.Response)
    (b : String)
    (h : (resp.Diagnostics.Append req.Config.diags).HasError = false)
    (hget : env.httpGet (req.Config.data.DiscoveryURL.ValueString
      ++ "/.well-known/openid-configuration") = .ok r)
    (hbody : r.Body = .ok b)
    (hdec : json.UnmarshalDiscoveryDocument b = .ok none) :
    DocumentDataSource.Read env req resp
      = ⟨[req.Config.data.DiscoveryURL.ValueString ++ "/.well-known/openid-configuration"],
         .panicked⟩ := by
  simp [DocumentDataSource.Read, h, hget, hbody, hdec, io.ReadAll]

theorem DocumentDataSource.read_document_decoded (env : Env)
    (req : datasource.ReadRequest DocumentDataSourceModel)
    (resp : datasource.ReadResponse DocumentDataSourceModel) (r : http.Response)
    (b : String) (doc : DiscoveryDocument)
    (h : (resp.Diagnostics.Append req.Config.diags).HasError = false)
    (hget : env.httpGet (req.Config.data.DiscoveryURL.ValueString
      ++ "/.well-known/openid-configuration") = .ok r)
    (hbody : r.Body = .ok b)
    (hdec : json.UnmarshalDiscoveryDocument b = .ok (some doc)) :
    DocumentDataSource.Read env req resp
      = ⟨[req.Config.data.DiscoveryURL.ValueString ++ "/.well-known/openid-configuration"],
         .returned ⟨some
           { ID := req.Config.data.DiscoveryURL
             DiscoveryURL := req.Config.data.DiscoveryURL
             Issuer := types.StringValue doc.Issuer
             JWKSURI := types.StringValue doc.JWKSURI
             ResponseTypesSupported := (types.ListValueFrom doc.ResponseTypesSupported).1
             SubjectTypesSupported := (types.ListValueFrom doc.SubjectTypesSupported).1
             IDTokenSigningAlgValuesSupported :=
               (types.ListValueFrom doc.IDTokenSigningAlgValuesSupported).1
             ClaimsSupported := (types.ListValueFrom doc.ClaimsSupported).1
             GrantTypes := (types.ListValueFrom doc.GrantTypes).1 },
           resp.Diagnostics.Append req.Config.diags⟩⟩ := by
  simp [DocumentDataSource.Read, h, hget, hbody, hdec, io.ReadAll, tfsdk.State.Set,
    types.listValueFrom_diags, diag.append_nil]

/-! ## The loop of `JWKSDataSource.Read` -/

theorem json.marshalJWKeys_no_error (k : JWKeys) : (json.MarshalJWKeys k).2 = none := rfl

theorem JWKSDataSource.loopBody_keys (lib : jwk.Library) (st : LoopState) (k : JWKeys) :
    (JWKSDataSource.loopBody lib st k).keysAsString
      = some (st.keysAsString.getD [] ++ [(json.MarshalJWKeys k).1]) := rfl

theorem JWKSDataSource.loopBody_pem (lib : jwk.Library) (st : LoopState) (k : JWKeys) :
    (JWKSDataSource.loopBody lib st k).pemAsString
      = some (st.pemAsString.getD [] ++
          [strings.TrimSpace (convertJkwsToPem lib (json.MarshalJWKeys k).1).1]) := rfl

theorem JWKSDataSource.loopBody_diags_ok (lib : jwk.Library) (st : LoopState) (k : JWKeys)
    (h : (convertJkwsToPem lib (json.MarshalJWKeys k).1).2 = none) :
    (JWKSDataSource.loopBody lib st k).Diagnostics = st.Diagnostics := by
  simp [JWKSDataSource.loopBody, h, json.marshalJWKeys_no_error]

theorem JWKSDataSource.loopBody_diags_error (lib : jwk.Library) (st : LoopState) (k : JWKeys)
    (h : (convertJkwsToPem lib (json.MarshalJWKeys k).1).2 ≠ none) :
    diag.NewErrorDiagnostic "Unable to convert JWKS keys as PEM"
      "The JSON key can't be converted to PEM." ∈ (JWKSDataSource.loopBody lib st k).Diagnostics := by
  cases hc : (convertJkwsToPem lib (json.MarshalJWKeys k).1).2 with
  | none => exact absurd hc h
  | some e =>
    simp only [JWKSDataSource.loopBody, hc, json.marshalJWKeys_no_error]
    exact diag.mem_addError _ _ _

theorem JWKSDataSource.loopBody_diags_mono (lib : jwk.Library) (st : LoopState) (k : JWKeys)
    (x : diag.Diagnostic) (h : x ∈ st.Diagnostics) :
    x ∈ (JWKSDataSource.loopBody lib st k).Diagnostics := by
  cases hc : (convertJkwsToPem lib (json.MarshalJWKeys k).1).2 with
  | none => rw [JWKSDataSource.loopBody_diags_ok lib st k hc]; exact h
  | some e =>
    simp only [JWKSDataSource.loopBody, hc, json.marshalJWKeys_no_error]
    exact diag.mem_addError_of_mem _ _ _ _ h

theorem JWKSDataSource.foldl_keys (lib : jwk.Library) (ks : List JWKeys) (k : JWKeys) (st : LoopState) :
    ((k :: ks).foldl (JWKSDataSource.loopBody lib) st).keysAsString
      = some (st.keysAsString.getD [] ++ (k :: ks).map (fun k => (json.MarshalJWKeys k).1)) := by
  induction ks generalizing k st with
  | nil => exact JWKSDataSource.loopBody_keys lib st k
  | cons k2 ks ih =>
    rw [List.foldl_cons, ih, JWKSDataSource.loopBody_keys]
    simp

theorem JWKSDataSource.foldl_pem (lib : jwk.Library) (ks : List JWKeys) (k : JWKeys) (st : LoopState) :
    ((k :: ks).foldl (JWKSDataSource.loopBody lib) st).pemAsString
      = some (st.pemAsString.getD [] ++ (k :: ks).map
          (fun k => strings.TrimSpace (convertJkwsToPem lib (json.MarshalJWKeys k).1).1)) := by
  induction ks generalizing k st with
  | nil => exact JWKSDataSource.loopBody_pem lib st k
  | cons k2 ks ih =>
    rw [List.foldl_cons, ih, JWKSDataSource.loopBody_pem]
    simp

theorem JWKSDataSource.foldl_keys_of_ne_nil (lib : jwk.Library) (ks : List JWKeys) (st : LoopState)
    (h : ks ≠ []) :
    (ks.foldl (JWKSDataSource.loopBody lib) st).keysAsString
      = some (st.keysAsString.getD [] ++ ks.map (fun k => (json.MarshalJWKeys k).1)) := by
  cases ks with
  | nil => exact absurd rfl h
  | cons k rest => exact JWKSDataSource.foldl_keys lib rest k st

theorem JWKSDataSource.foldl_pem_of_ne_nil (lib : jwk.Library) (ks : List JWKeys) (st : LoopState)
    (h : ks ≠ []) :
    (ks.foldl (JWKSDataSource.loopBody lib) st).pemAsString
      = some (st.pemAsString.getD [] ++ ks.map
          (fun k => strings.TrimSpace (convertJkwsToPem lib (json.MarshalJWKeys k).1).1)) := by
  cases ks with
  | nil => exact absurd rfl h
  | cons k rest => exact JWKSDataSource.foldl_pem lib rest k st

theorem JWKSDataSource.foldl_diags_ok (lib : jwk.Library) (ks : List JWKeys) (st : LoopState)
    (h : ∀ k ∈ ks, (convertJkwsToPem lib (json.MarshalJWKeys k).1).2 = none) :
    (ks.foldl (JWKSDataSource.loopBody lib) st).Diagnostics = st.Diagnostics := by
  induction ks generalizing st with
  | nil => rfl
  | cons k ks ih =>
    rw [List.foldl_cons, ih _ (fun k2 hk2 => h k2 (List.mem_cons_of_mem _ hk2)),
      JWKSDataSource.loopBody_diags_ok lib st k (h k (List.mem_cons_self _ _))]

theorem JWKSDataSource.foldl_diags_mono (lib : jwk.Library) (ks : List JWKeys) (st : LoopState)
    (x : diag.Diagnostic) (h : x ∈ st.Diagnostics) :
    x ∈ (ks.foldl (JWKSDataSource.loopBody lib) st).Diagnostics := by
  induction ks generalizing st with
  | nil => exact h
  | cons k ks ih =>
    rw [List.foldl_cons]
    exact ih _ (JWKSDataSource.loopBody_diags_mono lib st k x h)

theorem JWKSDataSource.foldl_diags_error (lib : jwk.Library) (ks : List JWKeys) (st : LoopState)
    (h : ∃ k ∈ ks, (convertJkwsToPem lib (json.MarshalJWKeys k).1).2 ≠ none) :
    diag.NewErrorDiagnostic "Unable to convert JWKS keys as PEM"
      "The JSON key can't be converted to PEM."
      ∈ (ks.foldl (JWKSDataSource.loopBody lib) st).Diagnostics := by
  induction ks generalizing st with
  | nil => obtain ⟨k, hk, _⟩ := h; cases hk
  | cons k ks ih =>
    rw [List.foldl_cons]
    obtain ⟨k2, hk2, hbad⟩ := h
    rcases List.mem_cons.mp hk2 with heq | hmem
    · subst heq
      exact JWKSDataSource.foldl_diags_mono lib ks _ _
        (JWKSDataSource.loopBody_diags_error lib st k2 hbad)
    · exact ih _ ⟨k2, hmem, hbad⟩

/-! ## The paths through `JWKSDataSource.Read` -/

theorem JWKSDataSource.read_jwks_config_error (env : Env)
    (req : datasource.ReadRequest JWKSDataSourceModel)
    (resp : datasource.ReadResponse JWKSDataSourceModel)
    (h : (resp.Diagnostics.Append req.Config.diags).HasError = true) :
    JWKSDataSource.Read env req resp
      = ⟨[], .returned ⟨resp.State, resp.Diagnostics.Append req.Config.diags⟩⟩ := by
  simp [JWKSDataSource.Read, h]

theorem JWKSDataSource.read_jwks_get_error (env : Env)
    (req : datasource.ReadRequest JWKSDataSourceModel)
    (resp : datasource.ReadResponse JWKSDataSourceModel) (e : GoError)
    (h : (resp.Diagnostics.Append req.Config.diags).HasError = false)
    (hget : env.httpGet req.Config.data.JWKSURI.ValueString = .error e) :
    JWKSDataSource.Read env req resp
      = ⟨[req.Config.data.JWKSURI.ValueString],
         .returned ⟨resp.State, (resp.Diagnostics.Append req.Config.diags).AddError
           "Unable to get the JWKS document"
           "Provided URL is not valid or not available."⟩⟩ := by
  simp [JWKSDataSource.Read, h, hget]

theorem JWKSDataSource.read_jwks_body_error (env : Env)
    (req : datasource.ReadRequest JWKSDataSourceModel)
    (resp : datasource.ReadResponse JWKSDataSourceModel) (r : http.Response) (e : GoError)
    (h : (resp.Diagnostics.Append req.Config.diags).HasError = false)
    (hget : env.httpGet req.Config.data.JWKSURI.ValueString = .ok r)
    (hbody : r.Body = .error e) :
    JWKSDataSource.Read env req resp
      = ⟨[req.Config.data.JWKSURI.ValueString],
         .returned ⟨resp.State, (resp.Diagnostics.Append req.Config.diags).AddError
           "Unable to read the JWKS document"
           "Document found is not readable."⟩⟩ := by
  simp [JWKSDataSource.Read, h, hget, hbody, io.ReadAll]

theorem JWKSDataSource.read_jwks_decode_error (env : Env)
    (req : datasource.ReadRequest JWKSDataSourceModel)
    (resp : datasource.ReadResponse JWKSDataSourceModel) (r : http.Response)
    (b : String) (e : GoError)
    (h : (resp.Diagnostics.Append req.Config.diags).HasError = false)
    (hget : env.httpGet req.Config.data.JWKSURI.ValueString = .ok r)
    (hbody : r.Body = .ok b)
    (hdec : json.UnmarshalJWKSDocument b = .error e) :
    JWKSDataSource.Read env req resp
      = ⟨[req.Config.data.JWKSURI.ValueString],
         .returned ⟨resp.State, (resp.Diagnostics.Append req.Config.diags).AddError
           "Unable to decode the JWKS document"
           "Document found is not in the right JSON format."⟩⟩ := by
  simp [JWKSDataSource.Read, h, hget, hbody, hdec, io.ReadAll]

theorem JWKSDataSource.read_jwks_nil (env : Env)
    (req : datasource.ReadRequest JWKSDataSourceModel)
    (resp : datasource.ReadResponse JWKSDataSourceModel) (r : http.Response)
    (b : String)
    (h : (resp.Diagnostics.Append req.Config.diags).HasError = false)
    (hget : env.httpGet req.Config.data.JWKSURI.ValueString = .ok r)
    (hbody : r.Body = .ok b)
    (hdec : json.UnmarshalJWKSDocument b = .ok none) :
    JWKSDataSource.Read env req resp
      = ⟨[req.Config.data.JWKSURI.ValueString], .panicked⟩ := by
  simp [JWKSDataSource.Read, h, hget, hbody, hdec, io.ReadAll]

theorem JWKSDataSource.read_jwks_decoded (env : Env)
    (req : datasource.ReadRequest JWKSDataSourceModel)
    (resp : datasource.ReadResponse JWKSDataSourceModel) (r : http.Response)
    (b : String) (doc : JWKSDocument)
    (h : (resp.Diagnostics.Append req.Config.diags).HasError = false)
    (hget : env.httpGet req.Config.data.JWKSURI.ValueString = .ok r)
    (hbody : r.Body = .ok b)
    (hdec : json.UnmarshalJWKSDocument b = .ok (some doc)) :
    JWKSDataSource.Read env req resp
      = ⟨[req.Config.data.JWKSURI.ValueString],
         .returned
          (if (JWKSDataSource.loop env.jwk doc.Keys
                ⟨resp.Diagnostics.Append req.Config.diags, none, none⟩).Diagnostics.HasError
           then ⟨resp.State, (JWKSDataSource.loop env.jwk doc.Keys
                ⟨resp.Diagnostics.Append req.Config.diags, none, none⟩).Diagnostics⟩
           else ⟨some
             { ID := req.Config.data.JWKSURI
               JWKSURI := req.Config.data.JWKSURI
               Keys := (types.ListValueFrom (JWKSDataSource.loop env.jwk doc.Keys
                ⟨resp.Diagnostics.Append req.Config.diags, none, none⟩).keysAsString).1
               PEM := (types.ListValueFrom (JWKSDataSource.loop env.jwk doc.Keys
                ⟨resp.Diagnostics.Append req.Config.diags, none, none⟩).pemAsString).1 },
             (JWKSDataSource.loop env.jwk doc.Keys
                ⟨resp.Diagnostics.Append req.Config.diags, none, none⟩).Diagnostics⟩)⟩ := by
  simp only [JWKSDataSource.Read, h, hget, hbody, hdec, io.ReadAll, tfsdk.State.Set,
    types.listValueFrom_diags, diag.append_nil]
  split_ifs <;> first | rfl | simp_all

theorem JWKSDataSource.read_jwks_decoded_failed (env : Env)
    (req : datasource.ReadRequest JWKSDataSourceModel)
    (resp : datasource.ReadResponse JWKSDataSourceModel) (r : http.Response)
    (b : String) (doc : JWKSDocument)
    (h : (resp.Diagnostics.Append req.Config.diags).HasError = false)
    (hget : env.httpGet req.Config.data.JWKSURI.ValueString = .ok r)
    (hbody : r.Body = .ok b)
    (hdec : json.UnmarshalJWKSDocument b = .ok (some doc))
    (hloop : (JWKSDataSource.loop env.jwk doc.Keys
      ⟨resp.Diagnostics.Append req.Config.diags, none, none⟩).Diagnostics.HasError = true) :
    JWKSDataSource.Read env req resp
      = ⟨[req.Config.data.JWKSURI.ValueString],
         .returned ⟨resp.State, (JWKSDataSource.loop env.jwk doc.Keys
            ⟨resp.Diagnostics.Append req.Config.diags, none, none⟩).Diagnostics⟩⟩ := by
  rw [JWKSDataSource.read_jwks_decoded env req resp r b doc h hget hbody hdec, if_pos hloop]

theorem JWKSDataSource.read_jwks_decoded_ok (env : Env)
    (req : datasource.ReadRequest JWKSDataSourceModel)
    (resp : datasource.ReadResponse JWKSDataSourceModel) (r : http.Response)
    (b : String) (doc : JWKSDocument)
    (h : (resp.Diagnostics.Append req.Config.diags).HasError = false)
    (hget : env.httpGet req.Config.data.JWKSURI.ValueString = .ok r)
    (hbody : r.Body = .ok b)
    (hdec : json.UnmarshalJWKSDocument b = .ok (some doc))
    (hloop : (JWKSDataSource.loop env.jwk doc.Keys
      ⟨resp.Diagnostics.Append req.Config.diags, none, none⟩).Diagnostics.HasError = false) :
    JWKSDataSource.Read env req resp
      = ⟨[req.Config.data.JWKSURI.ValueString],
         .returned ⟨some
             { ID := req.Config.data.JWKSURI
               JWKSURI := req.Config.data.JWKSURI
               Keys := (types.ListValueFrom (JWKSDataSource.loop env.jwk doc.Keys
                ⟨resp.Diagnostics.Append req.Config.diags, none, none⟩).keysAsString).1
               PEM := (types.ListValueFrom (JWKSDataSource.loop env.jwk doc.Keys
                ⟨resp.Diagnostics.Append req.Config.diags, none, none⟩).pemAsString).1 },
             (JWKSDataSource.loop env.jwk doc.Keys
                ⟨resp.Diagnostics.Append req.Config.diags, none, none⟩).Diagnostics⟩⟩ := by
  rw [JWKSDataSource.read_jwks_decoded env req resp r b doc h hget hbody hdec, hloop]
  rfl

/-! ## The decoder: members that select no field leave it alone -/

theorem decodeMembers_preserve {σ β : Type} (set : σ → List Char → Json → Except GoError σ)
    (proj : σ → β) (P : List Char → Prop)
    (hset : ∀ st key v st2, P key → set st key v = .ok st2 → proj st2 = proj st)
    (kvs : List (List Char × Json)) (st st2 : σ) (hP : ∀ kv ∈ kvs, P kv.1)
    (h : decodeMembers set st kvs = .ok st2) : proj st2 = proj st := by
  induction kvs generalizing st with
  | nil =>
    simp only [decodeMembers] at h
    injection h with h
    rw [h]
  | cons kv rest ih =>
    obtain ⟨key, v⟩ := kv
    simp only [decodeMembers] at h
    cases hs : set st key v with
    | error e => rw [hs] at h; cases h
    | ok st1 =>
      rw [hs] at h
      rw [ih st1 (fun kv hkv => hP kv (List.mem_cons_of_mem _ hkv)) h]
      exact hset st key v st1 (hP (key, v) (List.mem_cons_self _ _)) hs

theorem except_map_ok {α β : Type} (f : α → β) (x : Except GoError α) (y : β)
    (h : x.map f = .ok y) : ∃ a, x = .ok a ∧ y = f a := by
  cases x with
  | error e => cases h
  | ok a => exact ⟨a, rfl, by injection h with h; exact h.symm⟩

theorem DiscoveryDocumentBuf.setField_ResponseTypesSupported (d d2 : DiscoveryDocumentBuf)
    (key : List Char) (v : Json) (hk : fieldMatches "response_types_supported" key = false)
    (h : DiscoveryDocumentBuf.setField d key v = .ok d2) : d2.ResponseTypesSupported = d.ResponseTypesSupported := by
  unfold DiscoveryDocumentBuf.setField at h
  split_ifs at h
  all_goals first
    | (obtain ⟨a, _, rfl⟩ := except_map_ok _ _ _ h; rfl)
    | (injection h with h; rw [h])
    | simp_all

theorem DiscoveryDocumentBuf.setField_SubjectTypesSupported (d d2 : DiscoveryDocumentBuf)
    (key : List Char) (v : Json) (hk : fieldMatches "subject_types_supported" key = false)
    (h : DiscoveryDocumentBuf.setField d key v = .ok d2) : d2.SubjectTypesSupported = d.SubjectTypesSupported := by
  unfold DiscoveryDocumentBuf.setField at h
  split_ifs at h
  all_goals first
    | (obtain ⟨a, _, rfl⟩ := except_map_ok _ _ _ h; rfl)
    | (injection h with h; rw [h])
    | simp_all

theorem DiscoveryDocumentBuf.setField_IDTokenSigningAlgValuesSupported (d d2 : DiscoveryDocumentBuf)
    (key : List Char) (v : Json) (hk : fieldMatches "id_token_signing_alg_values_supported" key = false)
    (h : DiscoveryDocumentBuf.setField d key v = .ok d2) : d2.IDTokenSigningAlgValuesSupported = d.IDTokenSigningAlgValuesSupported := by
  unfold DiscoveryDocumentBuf.setField at h
  split_ifs at h
  all_goals first
    | (obtain ⟨a, _, rfl⟩ := except_map_ok _ _ _ h; rfl)
    | (injection h with h; rw [h])
    | simp_all

theorem DiscoveryDocumentBuf.setField_ClaimsSupported (d d2 : DiscoveryDocumentBuf)
    (key : List Char) (v : Json) (hk : fieldMatches "claims_supported" key = false)
    (h : DiscoveryDocumentBuf.setField d key v = .ok d2) : d2.ClaimsSupported = d.ClaimsSupported := by
  unfold DiscoveryDocumentBuf.setField at h
  split_ifs at h
  all_goals first
    | (obtain ⟨a, _, rfl⟩ := except_map_ok _ _ _ h; rfl)
    | (injection h with h; rw [h])
    | simp_all

theorem DiscoveryDocumentBuf.setField_GrantTypes (d d2 : DiscoveryDocumentBuf)
    (key : List Char) (v : Json) (hk : fieldMatches "grant_types" key = false)
    (h : DiscoveryDocumentBuf.setField d key v = .ok d2) : d2.GrantTypes = d.GrantTypes := by
  unfold DiscoveryDocumentBuf.setField at h
  split_ifs at h
  all_goals first
    | (obtain ⟨a, _, rfl⟩ := except_map_ok _ _ _ h; rfl)
    | (injection h with h; rw [h])
    | simp_all

theorem json.unmarshalDiscoveryDocument_object (b : String) (kvs : List (List Char × Json))
    (doc : DiscoveryDocument) (hparse : parseJSON b.data = some (.obj kvs))
    (hdec : json.UnmarshalDiscoveryDocument b = .ok (some doc)) :
    ∃ d, decodeMembers DiscoveryDocumentBuf.setField DiscoveryDocumentBuf.zero kvs = .ok d
      ∧ doc = d.toDocument := by
  unfold json.UnmarshalDiscoveryDocument at hdec
  rw [hparse] at hdec
  cases hm : decodeMembers DiscoveryDocumentBuf.setField DiscoveryDocumentBuf.zero kvs with
  | error e => simp [hm] at hdec
  | ok d =>
    simp only [hm] at hdec
    injection hdec with hdec
    injection hdec with hdec
    exact ⟨d, rfl, hdec.symm⟩

theorem json.unmarshal_absent_ResponseTypesSupported (b : String) (kvs : List (List Char × Json))
    (doc : DiscoveryDocument) (hparse : parseJSON b.data = some (.obj kvs))
    (hdec : json.UnmarshalDiscoveryDocument b = .ok (some doc))
    (habsent : ∀ kv ∈ kvs, fieldMatches "response_types_supported" kv.1 = false) :
    doc.ResponseTypesSupported = none := by
  obtain ⟨d, hd, rfl⟩ := json.unmarshalDiscoveryDocument_object b kvs doc hparse hdec
  have h := decodeMembers_preserve DiscoveryDocumentBuf.setField
    (fun d => d.ResponseTypesSupported) (fun key => fieldMatches "response_types_supported" key = false)
    (fun st key v st2 hk hs => DiscoveryDocumentBuf.setField_ResponseTypesSupported st st2 key v hk hs)
    kvs DiscoveryDocumentBuf.zero d habsent hd
  show SliceBuf.visible d.ResponseTypesSupported = none
  have h2 : d.ResponseTypesSupported = none := h
  rw [h2]
  rfl

theorem json.unmarshal_absent_SubjectTypesSupported (b : String) (kvs : List (List Char × Json))
    (doc : DiscoveryDocument) (hparse : parseJSON b.data = some (.obj kvs))
    (hdec : json.UnmarshalDiscoveryDocument b = .ok (some doc))
    (habsent : ∀ kv ∈ kvs, fieldMatches "subject_types_supported" kv.1 = false) :
    doc.SubjectTypesSupported = none := by
  obtain ⟨d, hd, rfl⟩ := json.unmarshalDiscoveryDocument_object b kvs doc hparse hdec
  have h := decodeMembers_preserve DiscoveryDocumentBuf.setField
    (fun d => d.SubjectTypesSupported) (fun key => fieldMatches "subject_types_supported" key = false)
    (fun st key v st2 hk hs => DiscoveryDocumentBuf.setField_SubjectTypesSupported st st2 key v hk hs)
    kvs DiscoveryDocumentBuf.zero d habsent hd
  show SliceBuf.visible d.SubjectTypesSupported = none
  have h2 : d.SubjectTypesSupported = none := h
  rw [h2]
  rfl

theorem json.unmarshal_absent_IDTokenSigningAlgValuesSupported (b : String) (kvs : List (List Char × Json))
    (doc : DiscoveryDocument) (hparse : parseJSON b.data = some (.obj kvs))
    (hdec : json.UnmarshalDiscoveryDocument b = .ok (some doc))
    (habsent : ∀ kv ∈ kvs, fieldMatches "id_token_signing_alg_values_supported" kv.1 = false) :
    doc.IDTokenSigningAlgValuesSupported = none := by
  obtain ⟨d, hd, rfl⟩ := json.unmarshalDiscoveryDocument_object b kvs doc hparse hdec
  have h := decodeMembers_preserve DiscoveryDocumentBuf.setField
    (fun d => d.IDTokenSigningAlgValuesSupported) (fun key => fieldMatches "id_token_signing_alg_values_supported" key = false)
    (fun st key v st2 hk hs => DiscoveryDocumentBuf.setField_IDTokenSigningAlgValuesSupported st st2 key v hk hs)
    kvs DiscoveryDocumentBuf.zero d habsent hd
  show SliceBuf.visible d.IDTokenSigningAlgValuesSupported = none
  have h2 : d.IDTokenSigningAlgValuesSupported = none := h
  rw [h2]
  rfl

theorem json.unmarshal_absent_ClaimsSupported (b : String) (kvs : List (List Char × Json))
    (doc : DiscoveryDocument) (hparse : parseJSON b.data = some (.obj kvs))
    (hdec : json.UnmarshalDiscoveryDocument b = .ok (some doc))
    (habsent : ∀ kv ∈ kvs, fieldMatches "claims_supported" kv.1 = false) :
    doc.ClaimsSupported = none := by
  obtain ⟨d, hd, rfl⟩ := json.unmarshalDiscoveryDocument_object b kvs doc hparse hdec
  have h := decodeMembers_preserve DiscoveryDocumentBuf.setField
    (fun d => d.ClaimsSupported) (fun key => fieldMatches "claims_supported" key = false)
    (fun st key v st2 hk hs => DiscoveryDocumentBuf.setField_ClaimsSupported st st2 key v hk hs)
    kvs DiscoveryDocumentBuf.zero d habsent hd
  show SliceBuf.visible d.ClaimsSupported = none
  have h2 : d.ClaimsSupported = none := h
  rw [h2]
  rfl

theorem json.unmarshal_absent_GrantTypes (b : String) (kvs : List (List Char × Json))
    (doc : DiscoveryDocument) (hparse : parseJSON b.data = some (.obj kvs))
    (hdec : json.UnmarshalDiscoveryDocument b = .ok (some doc))
    (habsent : ∀ kv ∈ kvs, fieldMatches "grant_types" kv.1 = false) :
    doc.GrantTypes = none := by
  obtain ⟨d, hd, rfl⟩ := json.unmarshalDiscoveryDocument_object b kvs doc hparse hdec
  have h := decodeMembers_preserve DiscoveryDocumentBuf.setField
    (fun d => d.GrantTypes) (fun key => fieldMatches "grant_types" key = false)
    (fun st key v st2 hk hs => DiscoveryDocumentBuf.setField_GrantTypes st st2 key v hk hs)
    kvs DiscoveryDocumentBuf.zero d habsent hd
  show SliceBuf.visible d.GrantTypes = none
  have h2 : d.GrantTypes = none := h
  rw [h2]
  rfl

/-! ## The decoder: which member a string field takes its value from -/

theorem foldEqList_length (ns ks : List Char) (h : foldEqList ns ks = true) :
    ns.length = ks.length := by
  induction ns generalizing ks with
  | nil =>
    cases ks with
    | nil => rfl
    | cons k ks => simp [foldEqList] at h
  | cons n ns ih =>
    cases ks with
    | nil => simp [foldEqList] at h
    | cons k ks =>
      simp only [foldEqList, Bool.and_eq_true] at h
      simp [ih ks h.2]

theorem fieldMatches_jwks_uri_not_issuer (key : List Char)
    (h : fieldMatches "jwks_uri" key = true) : fieldMatches "issuer" key = false := by
  cases hi : fieldMatches "issuer" key with
  | false => rfl
  | true =>
    have h1 := foldEqList_length _ _ h
    have h2 := foldEqList_length _ _ hi
    rw [← h1] at h2
    exact absurd h2 (by decide)

theorem decodeMembers_append {σ : Type} (set : σ → List Char → Json → Except GoError σ)
    (pre post : List (List Char × Json)) (st st2 : σ)
    (h : decodeMembers set st (pre ++ post) = .ok st2) :
    ∃ st1, decodeMembers set st pre = .ok st1 ∧ decodeMembers set st1 post = .ok st2 := by
  induction pre generalizing st with
  | nil => exact ⟨st, rfl, h⟩
  | cons kv rest ih =>
    obtain ⟨key, v⟩ := kv
    simp only [List.cons_append, decodeMembers] at h ⊢
    cases hs : set st key v with
    | error e => rw [hs] at h; cases h
    | ok st1 =>
      rw [hs] at h
      exact ih st1 h

theorem decodeMembers_keep {σ β : Type} (set : σ → List Char → Json → Except GoError σ)
    (proj : σ → β) (P : List Char → Json → Prop)
    (hset : ∀ st key v st2, P key v → set st key v = .ok st2 → proj st2 = proj st)
    (kvs : List (List Char × Json)) (st st2 : σ) (hP : ∀ kv ∈ kvs, P kv.1 kv.2)
    (h : decodeMembers set st kvs = .ok st2) : proj st2 = proj st := by
  induction kvs generalizing st with
  | nil =>
    simp only [decodeMembers] at h
    injection h with h
    rw [h]
  | cons kv rest ih =>
    obtain ⟨key, v⟩ := kv
    simp only [decodeMembers] at h
    cases hs : set st key v with
    | error e => rw [hs] at h; cases h
    | ok st1 =>
      rw [hs] at h
      rw [ih st1 (fun kv hkv => hP kv (List.mem_cons_of_mem _ hkv)) h]
      exact hset st key v st1 (hP (key, v) (List.mem_cons_self _ _)) hs

theorem DiscoveryDocumentBuf.setField_keep_Issuer (d d2 : DiscoveryDocumentBuf)
    (key : List Char) (v : Json) (hk : fieldMatches "issuer" key = true → v = .null)
    (h : DiscoveryDocumentBuf.setField d key v = .ok d2) : d2.Issuer = d.Issuer := by
  unfold DiscoveryDocumentBuf.setField at h
  split_ifs at h with h1
  · rw [hk h1] at h
    injection h with h
    rw [← h]
  all_goals first
    | (obtain ⟨a, _, rfl⟩ := except_map_ok _ _ _ h; rfl)
    | (injection h with h; rw [h])

theorem DiscoveryDocumentBuf.setField_put_Issuer (d d2 : DiscoveryDocumentBuf)
    (key s : List Char) (hk : fieldMatches "issuer" key = true)
    (h : DiscoveryDocumentBuf.setField d key (.str s) = .ok d2) : d2.Issuer = String.mk s := by
  unfold DiscoveryDocumentBuf.setField at h
  rw [if_pos hk] at h
  injection h with h
  rw [← h]

theorem DiscoveryDocumentBuf.setField_keep_JWKSURI (d d2 : DiscoveryDocumentBuf)
    (key : List Char) (v : Json) (hk : fieldMatches "jwks_uri" key = true → v = .null)
    (h : DiscoveryDocumentBuf.setField d key v = .ok d2) : d2.JWKSURI = d.JWKSURI := by
  unfold DiscoveryDocumentBuf.setField at h
  split_ifs at h with h1 h2
  · obtain ⟨a, _, rfl⟩ := except_map_ok _ _ _ h
    rfl
  · rw [hk h2] at h
    injection h with h
    rw [← h]
  all_goals first
    | (obtain ⟨a, _, rfl⟩ := except_map_ok _ _ _ h; rfl)
    | (injection h with h; rw [h])

theorem DiscoveryDocumentBuf.setField_put_JWKSURI (d d2 : DiscoveryDocumentBuf)
    (key s : List Char) (hk : fieldMatches "jwks_uri" key = true)
    (h : DiscoveryDocumentBuf.setField d key (.str s) = .ok d2) : d2.JWKSURI = String.mk s := by
  unfold DiscoveryDocumentBuf.setField at h
  rw [if_neg (by rw [fieldMatches_jwks_uri_not_issuer key hk]; simp), if_pos hk] at h
  injection h with h
  rw [← h]

theorem json.unmarshal_last_issuer (b : String) (doc : DiscoveryDocument)
    (pre post : List (List Char × Json)) (key s : List Char)
    (hparse : parseJSON b.data = some (.obj (pre ++ (key, .str s) :: post)))
    (hdec : json.UnmarshalDiscoveryDocument b = .ok (some doc))
    (hkey : fieldMatches "issuer" key = true)
    (hpost : ∀ kv ∈ post, fieldMatches "issuer" kv.1 = true → kv.2 = .null) :
    doc.Issuer = String.mk s := by
  obtain ⟨d, hd, rfl⟩ := json.unmarshalDiscoveryDocument_object b _ doc hparse hdec
  obtain ⟨d1, _, hd1⟩ := decodeMembers_append _ pre _ _ _ hd
  simp only [decodeMembers] at hd1
  cases hs : DiscoveryDocumentBuf.setField d1 key (.str s) with
  | error e => rw [hs] at hd1; cases hd1
  | ok d2 =>
    rw [hs] at hd1
    have h1 := DiscoveryDocumentBuf.setField_put_Issuer d1 d2 key s hkey hs
    have h2 := decodeMembers_keep DiscoveryDocumentBuf.setField (fun d => d.Issuer)
      (fun key v => fieldMatches "issuer" key = true → v = .null)
      (fun st key v st2 hk hst => DiscoveryDocumentBuf.setField_keep_Issuer st st2 key v hk hst)
      post d2 d hpost hd1
    show d.Issuer = String.mk s
    exact (h2 : d.Issuer = d2.Issuer).trans h1

theorem json.unmarshal_no_issuer (b : String) (doc : DiscoveryDocument)
    (kvs : List (List Char × Json))
    (hparse : parseJSON b.data = some (.obj kvs))
    (hdec : json.UnmarshalDiscoveryDocument b = .ok (some doc))
    (hnone : ∀ kv ∈ kvs, fieldMatches "issuer" kv.1 = true → kv.2 = .null) :
    doc.Issuer = "" := by
  obtain ⟨d, hd, rfl⟩ := json.unmarshalDiscoveryDocument_object b _ doc hparse hdec
  exact decodeMembers_keep DiscoveryDocumentBuf.setField (fun d => d.Issuer)
    (fun key v => fieldMatches "issuer" key = true → v = .null)
    (fun st key v st2 hk hst => DiscoveryDocumentBuf.setField_keep_Issuer st st2 key v hk hst)
    kvs DiscoveryDocumentBuf.zero d hnone hd

theorem json.unmarshal_last_jwks_uri (b : String) (doc : DiscoveryDocument)
    (pre post : List (List Char × Json)) (key s : List Char)
    (hparse : parseJSON b.data = some (.obj (pre ++ (key, .str s) :: post)))
    (hdec : json.UnmarshalDiscoveryDocument b = .ok (some doc))
    (hkey : fieldMatches "jwks_uri" key = true)
    (hpost : ∀ kv ∈ post, fieldMatches "jwks_uri" kv.1 = true → kv.2 = .null) :
    doc.JWKSURI = String.mk s := by
  obtain ⟨d, hd, rfl⟩ := json.unmarshalDiscoveryDocument_object b _ doc hparse hdec
  obtain ⟨d1, _, hd1⟩ := decodeMembers_append _ pre _ _ _ hd
  simp only [decodeMembers] at hd1
  cases hs : DiscoveryDocumentBuf.setField d1 key (.str s) with
  | error e => rw [hs] at hd1; cases hd1
  | ok d2 =>
    rw [hs] at hd1
    have h1 := DiscoveryDocumentBuf.setField_put_JWKSURI d1 d2 key s hkey hs
    have h2 := decodeMembers_keep DiscoveryDocumentBuf.setField (fun d => d.JWKSURI)
      (fun key v => fieldMatches "jwks_uri" key = true → v = .null)
      (fun st key v st2 hk hst => DiscoveryDocumentBuf.setField_keep_JWKSURI st st2 key v hk hst)
      post d2 d hpost hd1
    show d.JWKSURI = String.mk s
    exact (h2 : d.JWKSURI = d2.JWKSURI).trans h1

theorem json.unmarshal_no_jwks_uri (b : String) (doc : DiscoveryDocument)
    (kvs : List (List Char × Json))
    (hparse : parseJSON b.data = some (.obj kvs))
    (hdec : json.UnmarshalDiscoveryDocument b = .ok (some doc))
    (hnone : ∀ kv ∈ kvs, fieldMatches "jwks_uri" kv.1 = true → kv.2 = .null) :
    doc.JWKSURI = "" := by
  obtain ⟨d, hd, rfl⟩ := json.unmarshalDiscoveryDocument_object b _ doc hparse hdec
  exact decodeMembers_keep DiscoveryDocumentBuf.setField (fun d => d.JWKSURI)
    (fun key v => fieldMatches "jwks_uri" key = true → v = .null)
    (fun st key v st2 hk hst => DiscoveryDocumentBuf.setField_keep_JWKSURI st st2 key v hk hst)
    kvs DiscoveryDocumentBuf.zero d hnone hd


/-! ## The claims -/

/-- Claim C1.  When the JWKS body decodes to a document with N ≥ 1 keys and every
key converts to PEM without error, `JWKSDataSource.Read` returns with the state set,
the `keys` and `pem` attributes known lists of exactly N strings, and at every index
i < N `keys[i]` is the JSON serialization of the i-th key and `pem[i]` the
whitespace-trimmed PEM that `convertJkwsToPem` produces for that serialization. -/
theorem JWKSDataSource.read_keys_pem_aligned (env : Env)
    (req : datasource.ReadRequest JWKSDataSourceModel)
    (resp : datasource.ReadResponse JWKSDataSourceModel) (r : http.Response)
    (b : String) (doc : JWKSDocument) (ks : List JWKeys)
    (hcfg : (resp.Diagnostics.Append req.Config.diags).HasError = false)
    (hget : env.httpGet req.Config.data.JWKSURI.ValueString = .ok r)
    (hbody : r.Body = .ok b)
    (hdec : json.UnmarshalJWKSDocument b = .ok (some doc))
    (hkeys : doc.Keys = some ks) (hN : 1 ≤ ks.length)
    (hpem : ∀ k ∈ ks, (convertJkwsToPem env.jwk (json.MarshalJWKeys k).1).2 = none) :
    ∃ st keys pem,
      (JWKSDataSource.Read env req resp).outcome
        = .returned ⟨some st, resp.Diagnostics.Append req.Config.diags⟩
      ∧ st.Keys = .known keys ∧ st.PEM = .known pem
      ∧ keys.length = ks.length ∧ pem.length = ks.length
      ∧ ∀ i, i < ks.length →
          keys[i]? = ks[i]?.map (fun k => types.StringValue (json.MarshalJWKeys k).1)
          ∧ pem[i]? = ks[i]?.map (fun k => types.StringValue
              (strings.TrimSpace (convertJkwsToPem env.jwk (json.MarshalJWKeys k).1).1)) := by
  have hloopD : (JWKSDataSource.loop env.jwk doc.Keys
      ⟨resp.Diagnostics.Append req.Config.diags, none, none⟩).Diagnostics
      = resp.Diagnostics.Append req.Config.diags := by
    rw [hkeys]
    exact JWKSDataSource.foldl_diags_ok env.jwk ks _ hpem
  have hne : ks ≠ [] := by
    intro h0
    rw [h0] at hN
    exact absurd hN (by decide)
  have hK : (JWKSDataSource.loop env.jwk doc.Keys
      ⟨resp.Diagnostics.Append req.Config.diags, none, none⟩).keysAsString
      = some (ks.map (fun k => (json.MarshalJWKeys k).1)) := by
    rw [hkeys]
    exact (JWKSDataSource.foldl_keys_of_ne_nil env.jwk ks _ hne).trans (by simp)
  have hP : (JWKSDataSource.loop env.jwk doc.Keys
      ⟨resp.Diagnostics.Append req.Config.diags, none, none⟩).pemAsString
      = some (ks.map (fun k =>
          strings.TrimSpace (convertJkwsToPem env.jwk (json.MarshalJWKeys k).1).1)) := by
    rw [hkeys]
    exact (JWKSDataSource.foldl_pem_of_ne_nil env.jwk ks _ hne).trans (by simp)
  rw [JWKSDataSource.read_jwks_decoded env req resp r b doc hcfg hget hbody hdec, hloopD, hcfg,
    hK, hP]
  refine ⟨_, _, _, rfl, rfl, rfl, ?_, ?_, ?_⟩
  · simp
  · simp
  · intro i _
    constructor
    · rw [List.getElem?_map, List.getElem?_map, Option.map_map]
      rfl
    · rw [List.getElem?_map, List.getElem?_map, Option.map_map]
      rfl

/-- The hypotheses of C1 hold for the two RSA keys of `exampleJWKS`, and the state
then holds two JSON strings and two PEM strings. -/
theorem JWKSDataSource.read_keys_pem_aligned_witness :
    ∃ st keys pem,
      (JWKSDataSource.Read (exampleEnv 200 exampleJWKS)
        (jwksRequest "https://www.googleapis.com/oauth2/v3/certs")
        (emptyResponse JWKSDataSourceModel)).outcome = .returned ⟨some st, []⟩
      ∧ st.Keys = .known keys ∧ st.PEM = .known pem
      ∧ keys.length = 2 ∧ pem.length = 2 := by
  obtain ⟨st, keys, pem, h1, h2, h3, h4, h5, _⟩ :=
    JWKSDataSource.read_keys_pem_aligned (exampleEnv 200 exampleJWKS)
      (jwksRequest "https://www.googleapis.com/oauth2/v3/certs")
      (emptyResponse JWKSDataSourceModel) ⟨200, .ok exampleJWKS⟩ exampleJWKS
      ⟨some exampleKeys⟩ exampleKeys (by rfl) (by rfl) (by rfl) (by rfl) (by rfl)
      (by decide) (by decide)
  exact ⟨st, keys, pem, h1, h2, h3, h4, h5⟩

/-- Claim C2.  A read that returns without an error diagnostic has set the state, and
in that state `id` is the configured input attribute as it was given
(`discovery_url` for the document data source, `jwks_uri` for the JWKS data source),
and the input attribute itself is written back as given.  The value is copied as an
attribute value, so for a configured string `u` both are `types.StringValue u`,
whatever URL was requested and whatever issuer the document names. -/
theorem read_id_is_configured_url (env : Env) :
    (∀ (req : datasource.ReadRequest DocumentDataSourceModel)
        (resp resp2 : datasource.ReadResponse DocumentDataSourceModel) (gets : List String),
        DocumentDataSource.Read env req resp = ⟨gets, .returned resp2⟩ →
        resp2.Diagnostics.HasError = false →
        ∃ st, resp2.State = some st ∧ st.ID = req.Config.data.DiscoveryURL
          ∧ st.DiscoveryURL = req.Config.data.DiscoveryURL)
    ∧ (∀ (req : datasource.ReadRequest JWKSDataSourceModel)
        (resp resp2 : datasource.ReadResponse JWKSDataSourceModel) (gets : List String),
        JWKSDataSource.Read env req resp = ⟨gets, .returned resp2⟩ →
        resp2.Diagnostics.HasError = false →
        ∃ st, resp2.State = some st ∧ st.ID = req.Config.data.JWKSURI
          ∧ st.JWKSURI = req.Config.data.JWKSURI) := by
  constructor
  · intro req resp resp2 gets hrun hok
    cases hcfg : (resp.Diagnostics.Append req.Config.diags).HasError with
    | true =>
      rw [DocumentDataSource.read_document_config_error env req resp hcfg] at hrun
      injection hrun with _ hrun
      injection hrun with hrun
      rw [← hrun] at hok
      rw [hcfg] at hok
      cases hok
    | false =>
      cases hget : env.httpGet (req.Config.data.DiscoveryURL.ValueString
          ++ "/.well-known/openid-configuration") with
      | error e =>
        rw [DocumentDataSource.read_document_get_error env req resp e hcfg hget] at hrun
        injection hrun with _ hrun
        injection hrun with hrun
        rw [← hrun] at hok
        rw [diag.hasError_addError] at hok
        cases hok
      | ok r =>
        cases hbody : r.Body with
        | error e =>
          rw [DocumentDataSource.read_document_body_error env req resp r e hcfg hget hbody] at hrun
          injection hrun with _ hrun
          injection hrun with hrun
          rw [← hrun] at hok
          rw [diag.hasError_addError] at hok
          cases hok
        | ok b =>
          cases hdec : json.UnmarshalDiscoveryDocument b with
          | error e =>
            rw [DocumentDataSource.read_document_decode_error env req resp r b e hcfg hget hbody hdec]
              at hrun
            injection hrun with _ hrun
            injection hrun with hrun
            rw [← hrun] at hok
            rw [diag.hasError_addError] at hok
            cases hok
          | ok p =>
            cases p with
            | none =>
              rw [DocumentDataSource.read_document_nil env req resp r b hcfg hget hbody hdec] at hrun
              injection hrun with _ hrun
              cases hrun
            | some doc =>
              rw [DocumentDataSource.read_document_decoded env req resp r b doc hcfg hget hbody hdec]
                at hrun
              injection hrun with _ hrun
              injection hrun with hrun
              rw [← hrun]
              exact ⟨_, rfl, rfl, rfl⟩
  · intro req resp resp2 gets hrun hok
    cases hcfg : (resp.Diagnostics.Append req.Config.diags).HasError with
    | true =>
      rw [JWKSDataSource.read_jwks_config_error env req resp hcfg] at hrun
      injection hrun with _ hrun
      injection hrun with hrun
      rw [← hrun] at hok
      rw [hcfg] at hok
      cases hok
    | false =>
      cases hget : env.httpGet req.Config.data.JWKSURI.ValueString with
      | error e =>
        rw [JWKSDataSource.read_jwks_get_error env req resp e hcfg hget] at hrun
        injection hrun with _ hrun
        injection hrun with hrun
        rw [← hrun] at hok
        rw [diag.hasError_addError] at hok
        cases hok
      | ok r =>
        cases hbody : r.Body with
        | error e =>
          rw [JWKSDataSource.read_jwks_body_error env req resp r e hcfg hget hbody] at hrun
          injection hrun with _ hrun
          injection hrun with hrun
          rw [← hrun] at hok
          rw [diag.hasError_addError] at hok
          cases hok
        | ok b =>
          cases hdec : json.UnmarshalJWKSDocument b with
          | error e =>
            rw [JWKSDataSource.read_jwks_decode_error env req resp r b e hcfg hget hbody hdec]
              at hrun
            injection hrun with _ hrun
            injection hrun with hrun
            rw [← hrun] at hok
            rw [diag.hasError_addError] at hok
            cases hok
          | ok p =>
            cases p with
            | none =>
              rw [JWKSDataSource.read_jwks_nil env req resp r b hcfg hget hbody hdec] at hrun
              injection hrun with _ hrun
              cases hrun
            | some doc =>
              cases hloop : (JWKSDataSource.loop env.jwk doc.Keys
                ⟨resp.Diagnostics.Append req.Config.diags, none, none⟩).Diagnostics.HasError with
              | true =>
                rw [JWKSDataSource.read_jwks_decoded_failed env req resp r b doc hcfg hget hbody
                  hdec hloop] at hrun
                injection hrun with _ hrun
                injection hrun with hrun
                rw [← hrun] at hok
                rw [hloop] at hok
                cases hok
              | false =>
                rw [JWKSDataSource.read_jwks_decoded_ok env req resp r b doc hcfg hget hbody
                  hdec hloop] at hrun
                injection hrun with _ hrun
                injection hrun with hrun
                rw [← hrun]
                exact ⟨_, rfl, rfl, rfl⟩

/-- Both reads succeed in the example environment, and the `id` they write is the
configured URL: not the well-known URL requested, and for the document with the
issuer `https://accounts.google.com` configured as `https://accounts.google.com/`
not the issuer either. -/
theorem read_id_is_configured_url_witness :
    (∃ st : DocumentDataSourceModel,
        st.ID = types.StringValue "https://accounts.google.com/"
        ∧ st.DiscoveryURL = types.StringValue "https://accounts.google.com/")
    ∧ (∃ st : JWKSDataSourceModel,
        st.ID = types.StringValue "https://www.googleapis.com/oauth2/v3/certs"
        ∧ st.JWKSURI = types.StringValue "https://www.googleapis.com/oauth2/v3/certs") := by
  constructor
  · obtain ⟨st, _, h1, h2⟩ := (read_id_is_configured_url (exampleEnv 200 exampleDiscovery)).1
      (documentRequest "https://accounts.google.com/")
      (emptyResponse DocumentDataSourceModel)
      ⟨some (exampleDocumentState "https://accounts.google.com/"), []⟩
      ["https://accounts.google.com//.well-known/openid-configuration"]
      (by rfl) (by rfl)
    exact ⟨st, h1, h2⟩
  · obtain ⟨st, _, h1, h2⟩ := (read_id_is_configured_url (exampleEnv 200 exampleJWKS)).2
      (jwksRequest "https://www.googleapis.com/oauth2/v3/certs")
      (emptyResponse JWKSDataSourceModel)
      ⟨some (exampleJWKSState "https://www.googleapis.com/oauth2/v3/certs"), []⟩
      ["https://www.googleapis.com/oauth2/v3/certs"]
      (by rfl) (by rfl)
    exact ⟨st, h1, h2⟩

/-- Claim C3 as stated fails.  The body `exampleTwoIssuers` decodes to a discovery
document; its member named `issuer` holds `https://accounts.google.com`, yet the
`issuer` attribute written is the string of the later member `ISSUER`, whose name
`encoding/json` matches to the same field. -/
theorem DocumentDataSource.read_issuer_not_issuer_member :
    parseJSON exampleTwoIssuers.data
      = some (.obj [("issuer".data, .str "https://accounts.google.com".data),
                    ("ISSUER".data, .str "https://other.example".data)])
    ∧ ∃ st, (DocumentDataSource.Read (exampleEnv 200 exampleTwoIssuers)
          (documentRequest "https://accounts.google.com")
          (emptyResponse DocumentDataSourceModel)).outcome = .returned ⟨some st, []⟩
        ∧ st.Issuer = .known "https://other.example"
        ∧ st.Issuer ≠ .known "https://accounts.google.com" :=
  ⟨by rfl,
   ⟨⟨types.StringValue "https://accounts.google.com",
      types.StringValue "https://accounts.google.com",
      types.StringValue "https://other.example", types.StringValue "",
      .null, .null, .null, .null, .null⟩, by rfl, rfl, by decide⟩⟩

/-- Claim C3, amended.  When the body is a JSON object with members `kvs` and decodes
to a discovery document, `DocumentDataSource.Read` returns with the state set, and the
`issuer` attribute is tied to the members of the body as follows.  If a member whose
name matches `issuer` (as `encoding/json` matches names: ignoring case) holds the
string `s`, and every later member whose name matches holds `null`, the attribute is the
known string `s`, character for character as the scanner decoded it.  If every member
whose name matches holds `null`, or none matches, the attribute is the known empty
string.  The same holds for `jwks_uri`. -/
theorem DocumentDataSource.read_issuer_jwks_uri_of_members (env : Env)
    (req : datasource.ReadRequest DocumentDataSourceModel)
    (resp : datasource.ReadResponse DocumentDataSourceModel) (r : http.Response)
    (b : String) (kvs : List (List Char × Json)) (doc : DiscoveryDocument)
    (hcfg : (resp.Diagnostics.Append req.Config.diags).HasError = false)
    (hget : env.httpGet (req.Config.data.DiscoveryURL.ValueString
      ++ "/.well-known/openid-configuration") = .ok r)
    (hbody : r.Body = .ok b)
    (hparse : parseJSON b.data = some (.obj kvs))
    (hdec : json.UnmarshalDiscoveryDocument b = .ok (some doc)) :
    ∃ st, (DocumentDataSource.Read env req resp).outcome
        = .returned ⟨some st, resp.Diagnostics.Append req.Config.diags⟩
      ∧ (∀ pre post key s, kvs = pre ++ (key, .str s) :: post →
          fieldMatches "issuer" key = true →
          (∀ kv ∈ post, fieldMatches "issuer" kv.1 = true → kv.2 = .null) →
          st.Issuer = .known (String.mk s))
      ∧ ((∀ kv ∈ kvs, fieldMatches "issuer" kv.1 = true → kv.2 = .null) →
          st.Issuer = .known "")
      ∧ (∀ pre post key s, kvs = pre ++ (key, .str s) :: post →
          fieldMatches "jwks_uri" key = true →
          (∀ kv ∈ post, fieldMatches "jwks_uri" kv.1 = true → kv.2 = .null) →
          st.JWKSURI = .known (String.mk s))
      ∧ ((∀ kv ∈ kvs, fieldMatches "jwks_uri" kv.1 = true → kv.2 = .null) →
          st.JWKSURI = .known "") := by
  rw [DocumentDataSource.read_document_decoded env req resp r b doc hcfg hget hbody hdec]
  refine ⟨_, rfl, ?_, ?_, ?_, ?_⟩
  · intro pre post key s hkvs hkey hpost
    show types.StringValue doc.Issuer = .known (String.mk s)
    rw [json.unmarshal_last_issuer b doc pre post key s (hkvs ▸ hparse) hdec hkey hpost]
    rfl
  · intro hnone
    show types.StringValue doc.Issuer = .known ""
    rw [json.unmarshal_no_issuer b doc kvs hparse hdec hnone]
    rfl
  · intro pre post key s hkvs hkey hpost
    show types.StringValue doc.JWKSURI = .known (String.mk s)
    rw [json.unmarshal_last_jwks_uri b doc pre post key s (hkvs ▸ hparse) hdec hkey hpost]
    rfl
  · intro hnone
    show types.StringValue doc.JWKSURI = .known ""
    rw [json.unmarshal_no_jwks_uri b doc kvs hparse hdec hnone]
    rfl

/-- The body `exampleTwoIssuers`: the last member matching `issuer` is `ISSUER`, so
its string is the attribute, and with no member matching `jwks_uri` that attribute is
the empty string. -/
theorem DocumentDataSource.read_issuer_jwks_uri_of_members_witness :
    ∃ st, (DocumentDataSource.Read (exampleEnv 200 exampleTwoIssuers)
        (documentRequest "https://accounts.google.com")
        (emptyResponse DocumentDataSourceModel)).outcome = .returned ⟨some st, []⟩
      ∧ st.Issuer = .known "https://other.example"
      ∧ st.JWKSURI = .known "" := by
  obtain ⟨st, h0, h1, _, _, h4⟩ := DocumentDataSource.read_issuer_jwks_uri_of_members
    (exampleEnv 200 exampleTwoIssuers)
    (documentRequest "https://accounts.google.com")
    (emptyResponse DocumentDataSourceModel)
    ⟨200, .ok exampleTwoIssuers⟩ exampleTwoIssuers
    [("issuer".data, .str "https://accounts.google.com".data),
     ("ISSUER".data, .str "https://other.example".data)]
    ⟨"https://other.example", "", none, none, none, none, none, none⟩
    (by rfl) (by rfl) (by rfl) (by rfl) (by rfl)
  refine ⟨st, h0, ?_, ?_⟩
  · exact h1 [("issuer".data, .str "https://accounts.google.com".data)] []
      "ISSUER".data "https://other.example".data (by rfl) (by decide)
      (fun kv hkv => absurd hkv (List.not_mem_nil kv))
  · apply h4
    intro kv hkv hm
    rcases List.mem_cons.mp hkv with rfl | hkv
    · exact absurd hm (by decide)
    · rcases List.mem_cons.mp hkv with rfl | hkv
      · exact absurd hm (by decide)
      · exact absurd hkv (List.not_mem_nil kv)

/-- Claim C4.  When the configuration is read without error and `discovery_url` is the
string `u`, `DocumentDataSource.Read` calls `http.Get` exactly once, with the string
`u` followed by `/.well-known/openid-configuration`.  Nothing is removed from `u`: for
a base URL `v ++ "/"` the URL requested is `v` followed by
`//.well-known/openid-configuration`. -/
theorem DocumentDataSource.read_requests_well_known (env : Env)
    (req : datasource.ReadRequest DocumentDataSourceModel)
    (resp : datasource.ReadResponse DocumentDataSourceModel) (u : String)
    (hcfg : (resp.Diagnostics.Append req.Config.diags).HasError = false)
    (hu : req.Config.data.DiscoveryURL = types.StringValue u) :
    (DocumentDataSource.Read env req resp).gets = [u ++ "/.well-known/openid-configuration"]
    ∧ ∀ v, u = v ++ "/" →
        (DocumentDataSource.Read env req resp).gets
          = [v ++ "//.well-known/openid-configuration"] := by
  have hurl : req.Config.data.DiscoveryURL.ValueString = u := by rw [hu]; rfl
  have hgets : (DocumentDataSource.Read env req resp).gets
      = [u ++ "/.well-known/openid-configuration"] := by
    rw [← hurl]
    cases hget : env.httpGet (req.Config.data.DiscoveryURL.ValueString
        ++ "/.well-known/openid-configuration") with
    | error e => rw [DocumentDataSource.read_document_get_error env req resp e hcfg hget]
    | ok r =>
      cases hbody : r.Body with
      | error e => rw [DocumentDataSource.read_document_body_error env req resp r e hcfg hget hbody]
      | ok b =>
        cases hdec : json.UnmarshalDiscoveryDocument b with
        | error e =>
          rw [DocumentDataSource.read_document_decode_error env req resp r b e hcfg hget hbody hdec]
        | ok p =>
          cases p with
          | none => rw [DocumentDataSource.read_document_nil env req resp r b hcfg hget hbody hdec]
          | some doc =>
            rw [DocumentDataSource.read_document_decoded env req resp r b doc hcfg hget hbody hdec]
  refine ⟨hgets, ?_⟩
  intro v hv
  rw [hgets, hv, String.append_assoc]
  rfl

/-- The request for the issuer of the tests, and for the same issuer written with a
trailing slash. -/
theorem DocumentDataSource.read_requests_well_known_witness :
    (DocumentDataSource.Read (exampleEnv 200 exampleDiscovery)
        (documentRequest "https://accounts.google.com")
        (emptyResponse DocumentDataSourceModel)).gets
      = ["https://accounts.google.com/.well-known/openid-configuration"]
    ∧ (DocumentDataSource.Read (exampleEnv 200 exampleDiscovery)
        (documentRequest "https://accounts.google.com/")
        (emptyResponse DocumentDataSourceModel)).gets
      = ["https://accounts.google.com//.well-known/openid-configuration"] :=
  ⟨(DocumentDataSource.read_requests_well_known (exampleEnv 200 exampleDiscovery)
      (documentRequest "https://accounts.google.com")
      (emptyResponse DocumentDataSourceModel) "https://accounts.google.com"
      (by rfl) (by rfl)).1,
   (DocumentDataSource.read_requests_well_known (exampleEnv 200 exampleDiscovery)
      (documentRequest "https://accounts.google.com/")
      (emptyResponse DocumentDataSourceModel) "https://accounts.google.com/"
      (by rfl) (by rfl)).2 "https://accounts.google.com" (by rfl)⟩

/-- Claim C5.  When `json.Unmarshal` rejects the body (the text is not JSON, or its
shape does not fit the struct), each `Read` returns, without panicking, the response
with its state untouched and with exactly one diagnostic added: the error whose summary
is `Unable to decode the discovery document`, respectively `Unable to decode the JWKS
document`. -/
theorem read_decode_error_reported (env : Env) :
    (∀ (req : datasource.ReadRequest DocumentDataSourceModel)
        (resp : datasource.ReadResponse DocumentDataSourceModel) (r : http.Response)
        (b : String) (e : GoError),
        (resp.Diagnostics.Append req.Config.diags).HasError = false →
        env.httpGet (req.Config.data.DiscoveryURL.ValueString
          ++ "/.well-known/openid-configuration") = .ok r →
        r.Body = .ok b →
        json.UnmarshalDiscoveryDocument b = .error e →
        (DocumentDataSource.Read env req resp).outcome
          = .returned ⟨resp.State, resp.Diagnostics.Append req.Config.diags
              ++ [diag.NewErrorDiagnostic "Unable to decode the discovery document"
                    "Document found is not in the right JSON format."]⟩)
    ∧ (∀ (req : datasource.ReadRequest JWKSDataSourceModel)
        (resp : datasource.ReadResponse JWKSDataSourceModel) (r : http.Response)
        (b : String) (e : GoError),
        (resp.Diagnostics.Append req.Config.diags).HasError = false →
        env.httpGet req.Config.data.JWKSURI.ValueString = .ok r →
        r.Body = .ok b →
        json.UnmarshalJWKSDocument b = .error e →
        (JWKSDataSource.Read env req resp).outcome
          = .returned ⟨resp.State, resp.Diagnostics.Append req.Config.diags
              ++ [diag.NewErrorDiagnostic "Unable to decode the JWKS document"
                    "Document found is not in the right JSON format."]⟩) := by
  constructor
  · intro req resp r b e hcfg hget hbody hdec
    rw [DocumentDataSource.read_document_decode_error env req resp r b e hcfg hget hbody hdec,
      diag.addError_of_hasError_false _ _ _ hcfg]
  · intro req resp r b e hcfg hget hbody hdec
    rw [JWKSDataSource.read_jwks_decode_error env req resp r b e hcfg hget hbody hdec,
      diag.addError_of_hasError_false _ _ _ hcfg]

/-- A truncated document, which the scanner rejects, and a key set whose `keys`
member is a number, which does not fit the struct: each read returns the decode error
alone and leaves the state unset. -/
theorem read_decode_error_reported_witness :
    (DocumentDataSource.Read (exampleEnv 200 "\x7b\"issuer\":\"https://accounts.goo")
        (documentRequest "https://accounts.google.com")
        (emptyResponse DocumentDataSourceModel)).outcome
      = .returned ⟨none, [diag.NewErrorDiagnostic "Unable to decode the discovery document"
          "Document found is not in the right JSON format."]⟩
    ∧ (JWKSDataSource.Read (exampleEnv 200 "\x7b\"keys\":5\x7d")
        (jwksRequest "https://www.googleapis.com/oauth2/v3/certs")
        (emptyResponse JWKSDataSourceModel)).outcome
      = .returned ⟨none, [diag.NewErrorDiagnostic "Unable to decode the JWKS document"
          "Document found is not in the right JSON format."]⟩ :=
  ⟨(read_decode_error_reported (exampleEnv 200 "\x7b\"issuer\":\"https://accounts.goo")).1
      (documentRequest "https://accounts.google.com")
      (emptyResponse DocumentDataSourceModel)
      ⟨200, .ok "\x7b\"issuer\":\"https://accounts.goo"⟩
      "\x7b\"issuer\":\"https://accounts.goo" syntaxError (by rfl) (by rfl) (by rfl) (by rfl),
   (read_decode_error_reported (exampleEnv 200 "\x7b\"keys\":5\x7d")).2
      (jwksRequest "https://www.googleapis.com/oauth2/v3/certs")
      (emptyResponse JWKSDataSourceModel) ⟨200, .ok "\x7b\"keys\":5\x7d"⟩
      "\x7b\"keys\":5\x7d" typeMismatch (by rfl) (by rfl) (by rfl) (by rfl)⟩

/-- Claim C6.  When the body decodes to a key set in which some key fails PEM
conversion, the loop of `JWKSDataSource.Read` still runs over every key: it ends with
one JSON string per key and one PEM entry per key, in source order.  The read then
returns with the error `Unable to convert JWKS keys as PEM` among the diagnostics and
with the state as it was: `State.Set` is not reached. -/
theorem JWKSDataSource.read_pem_failure_fails_read (env : Env)
    (req : datasource.ReadRequest JWKSDataSourceModel)
    (resp : datasource.ReadResponse JWKSDataSourceModel) (r : http.Response)
    (b : String) (doc : JWKSDocument)
    (hcfg : (resp.Diagnostics.Append req.Config.diags).HasError = false)
    (hget : env.httpGet req.Config.data.JWKSURI.ValueString = .ok r)
    (hbody : r.Body = .ok b)
    (hdec : json.UnmarshalJWKSDocument b = .ok (some doc))
    (hfail : ∃ k ∈ doc.Keys.range, (convertJkwsToPem env.jwk (json.MarshalJWKeys k).1).2 ≠ none) :
    (JWKSDataSource.loop env.jwk doc.Keys
        ⟨resp.Diagnostics.Append req.Config.diags, none, none⟩).keysAsString
      = some (doc.Keys.range.map (fun k => (json.MarshalJWKeys k).1))
    ∧ (JWKSDataSource.loop env.jwk doc.Keys
        ⟨resp.Diagnostics.Append req.Config.diags, none, none⟩).pemAsString
      = some (doc.Keys.range.map (fun k =>
          strings.TrimSpace (convertJkwsToPem env.jwk (json.MarshalJWKeys k).1).1))
    ∧ ∃ diags, (JWKSDataSource.Read env req resp).outcome = .returned ⟨resp.State, diags⟩
        ∧ diag.NewErrorDiagnostic "Unable to convert JWKS keys as PEM"
            "The JSON key can't be converted to PEM." ∈ diags
        ∧ diags.HasError = true := by
  have hne : doc.Keys.range ≠ [] := by
    intro h0
    obtain ⟨k, hk, _⟩ := hfail
    rw [h0] at hk
    cases hk
  have hmem := JWKSDataSource.foldl_diags_error env.jwk doc.Keys.range
    ⟨resp.Diagnostics.Append req.Config.diags, none, none⟩ hfail
  have herr := diag.hasError_of_mem _ _ _ hmem
  refine ⟨?_, ?_, _, ?_, hmem, herr⟩
  · exact (JWKSDataSource.foldl_keys_of_ne_nil env.jwk doc.Keys.range _ hne).trans (by simp)
  · exact (JWKSDataSource.foldl_pem_of_ne_nil env.jwk doc.Keys.range _ hne).trans (by simp)
  · rw [JWKSDataSource.read_jwks_decoded_failed env req resp r b doc hcfg hget hbody hdec herr]
    rfl

/-- The key set `exampleMixedJWKS`: its second key is rejected by the example key
library, the loop still yields three JSON strings, and the read fails with the state
unset. -/
theorem JWKSDataSource.read_pem_failure_fails_read_witness :
    (JWKSDataSource.loop exampleLibrary (some exampleMixedKeys)
        ⟨[], none, none⟩).keysAsString
      = some (exampleMixedKeys.map (fun k => (json.MarshalJWKeys k).1))
    ∧ ∃ diags, (JWKSDataSource.Read (exampleEnv 200 exampleMixedJWKS)
          (jwksRequest "https://www.googleapis.com/oauth2/v3/certs")
          (emptyResponse JWKSDataSourceModel)).outcome = .returned ⟨none, diags⟩
        ∧ diags.HasError = true := by
  obtain ⟨h1, _, diags, h3, _, h5⟩ :=
    JWKSDataSource.read_pem_failure_fails_read (exampleEnv 200 exampleMixedJWKS)
      (jwksRequest "https://www.googleapis.com/oauth2/v3/certs")
      (emptyResponse JWKSDataSourceModel) ⟨200, .ok exampleMixedJWKS⟩ exampleMixedJWKS
      ⟨some exampleMixedKeys⟩ (by rfl) (by rfl) (by rfl) (by rfl)
      ⟨⟨"EC", "", "", "k2", "", ""⟩, by decide, by decide⟩
  exact ⟨h1, diags, h3, h5⟩

/-- Claim C7 as stated fails.  The body `exampleBareDiscovery` has the two members
`issuer` and `jwks_uri` and no other; the read succeeds, and the `claims_supported`
attribute it writes is the null list, which is not the known empty list. -/
theorem DocumentDataSource.read_absent_list_not_empty :
    parseJSON exampleBareDiscovery.data
      = some (.obj [("issuer".data, .str "https://accounts.google.com".data),
                    ("jwks_uri".data, .str "https://www.googleapis.com/oauth2/v3/certs".data)])
    ∧ ∃ st, (DocumentDataSource.Read (exampleEnv 200 exampleBareDiscovery)
          (documentRequest "https://accounts.google.com")
          (emptyResponse DocumentDataSourceModel)).outcome = .returned ⟨some st, []⟩
        ∧ st.ClaimsSupported = .null
        ∧ st.ClaimsSupported ≠ .known [] :=
  ⟨by rfl,
   ⟨⟨types.StringValue "https://accounts.google.com",
      types.StringValue "https://accounts.google.com",
      types.StringValue "https://accounts.google.com",
      types.StringValue "https://www.googleapis.com/oauth2/v3/certs",
      .null, .null, .null, .null, .null⟩, by rfl, rfl, by decide⟩⟩

/-- Claim C7, amended.  When the body is a JSON object with members `kvs` and decodes
to a discovery document, `DocumentDataSource.Read` returns with the state set and no
diagnostic added.  For each of `response_types_supported`, `subject_types_supported`,
`id_token_signing_alg_values_supported` and `claims_supported`: if no member has a
name that matches the field (as `encoding/json` matches names: ignoring case), the
attribute is written as the null list, not as a known list of zero elements.  The
same holds for `grant_types` when no member matches `grant_types` and none matches
`grant_types_supported`; nothing is said here about `grant_types` for a document that
has a `grant_types_supported` member. -/
theorem DocumentDataSource.read_absent_list_is_null (env : Env)
    (req : datasource.ReadRequest DocumentDataSourceModel)
    (resp : datasource.ReadResponse DocumentDataSourceModel) (r : http.Response)
    (b : String) (kvs : List (List Char × Json)) (doc : DiscoveryDocument)
    (hcfg : (resp.Diagnostics.Append req.Config.diags).HasError = false)
    (hget : env.httpGet (req.Config.data.DiscoveryURL.ValueString
      ++ "/.well-known/openid-configuration") = .ok r)
    (hbody : r.Body = .ok b)
    (hparse : parseJSON b.data = some (.obj kvs))
    (hdec : json.UnmarshalDiscoveryDocument b = .ok (some doc)) :
    ∃ st, (DocumentDataSource.Read env req resp).outcome
        = .returned ⟨some st, resp.Diagnostics.Append req.Config.diags⟩
      ∧ ((∀ kv ∈ kvs, fieldMatches "response_types_supported" kv.1 = false) →
          st.ResponseTypesSupported = .null)
      ∧ ((∀ kv ∈ kvs, fieldMatches "subject_types_supported" kv.1 = false) →
          st.SubjectTypesSupported = .null)
      ∧ ((∀ kv ∈ kvs, fieldMatches "id_token_signing_alg_values_supported" kv.1 = false) →
          st.IDTokenSigningAlgValuesSupported = .null)
      ∧ ((∀ kv ∈ kvs, fieldMatches "claims_supported" kv.1 = false) →
          st.ClaimsSupported = .null)
      ∧ ((∀ kv ∈ kvs, fieldMatches "grant_types" kv.1 = false
            ∧ fieldMatches "grant_types_supported" kv.1 = false) →
          st.GrantTypes = .null) := by
  rw [DocumentDataSource.read_document_decoded env req resp r b doc hcfg hget hbody hdec]
  refine ⟨_, rfl, ?_, ?_, ?_, ?_, ?_⟩
  · intro h
    show (types.ListValueFrom doc.ResponseTypesSupported).1 = .null
    rw [json.unmarshal_absent_ResponseTypesSupported b kvs doc hparse hdec h]
    rfl
  · intro h
    show (types.ListValueFrom doc.SubjectTypesSupported).1 = .null
    rw [json.unmarshal_absent_SubjectTypesSupported b kvs doc hparse hdec h]
    rfl
  · intro h
    show (types.ListValueFrom doc.IDTokenSigningAlgValuesSupported).1 = .null
    rw [json.unmarshal_absent_IDTokenSigningAlgValuesSupported b kvs doc hparse hdec h]
    rfl
  · intro h
    show (types.ListValueFrom doc.ClaimsSupported).1 = .null
    rw [json.unmarshal_absent_ClaimsSupported b kvs doc hparse hdec h]
    rfl
  · intro h
    show (types.ListValueFrom doc.GrantTypes).1 = .null
    rw [json.unmarshal_absent_GrantTypes b kvs doc hparse hdec (fun kv hkv => (h kv hkv).1)]
    rfl

/-- The body `exampleBareDiscovery`, which has no list member and publishes no grant
types under either name: the read succeeds and all five list attributes are null. -/
theorem DocumentDataSource.read_absent_list_is_null_witness :
    ∃ st, (DocumentDataSource.Read (exampleEnv 200 exampleBareDiscovery)
        (documentRequest "https://accounts.google.com")
        (emptyResponse DocumentDataSourceModel)).outcome = .returned ⟨some st, []⟩
      ∧ st.ResponseTypesSupported = .null ∧ st.SubjectTypesSupported = .null
      ∧ st.IDTokenSigningAlgValuesSupported = .null ∧ st.ClaimsSupported = .null
      ∧ st.GrantTypes = .null := by
  obtain ⟨st, h0, h1, h2, h3, h4, h5⟩ := DocumentDataSource.read_absent_list_is_null
    (exampleEnv 200 exampleBareDiscovery)
    (documentRequest "https://accounts.google.com")
    (emptyResponse DocumentDataSourceModel)
    ⟨200, .ok exampleBareDiscovery⟩ exampleBareDiscovery
    [("issuer".data, .str "https://accounts.google.com".data),
     ("jwks_uri".data, .str "https://www.googleapis.com/oauth2/v3/certs".data)]
    ⟨"https://accounts.google.com", "https://www.googleapis.com/oauth2/v3/certs",
      none, none, none, none, none, none⟩
    (by rfl) (by rfl) (by rfl) (by rfl) (by rfl)
  exact ⟨st, h0, h1 (by decide), h2 (by decide), h3 (by decide), h4 (by decide),
    h5 (by decide)⟩

/-- Claim C8 fails on the code.  `exampleDiscovery` publishes its grant types under
`grant_types_supported`; they are decoded into `GrantTypesSupported`, which `Read`
never reads, and the `grant_types` attribute, taken from `GrantTypes`, is null. -/
theorem DocumentDataSource.read_ignores_grant_types_supported :
    (∃ doc, json.UnmarshalDiscoveryDocument exampleDiscovery = .ok (some doc)
      ∧ doc.GrantTypesSupported = some ["authorization_code", "refresh_token"]
      ∧ doc.GrantTypes = none)
    ∧ ∃ st, (DocumentDataSource.Read (exampleEnv 200 exampleDiscovery)
          (documentRequest "https://accounts.google.com")
          (emptyResponse DocumentDataSourceModel)).outcome = .returned ⟨some st, []⟩
        ∧ st.GrantTypes = .null
        ∧ st.GrantTypes ≠ .known [types.StringValue "authorization_code",
            types.StringValue "refresh_token"] :=
  ⟨⟨⟨"https://accounts.google.com", "https://www.googleapis.com/oauth2/v3/certs",
      some ["code", "id_token"], some ["public"], some ["RS256"], none, none,
      some ["authorization_code", "refresh_token"]⟩, by rfl, rfl, rfl⟩,
   ⟨exampleDocumentState "https://accounts.google.com", by rfl, rfl, by decide⟩⟩

/-- Claim C9 fails on the code.  For the body `null`, which is well-formed JSON,
`json.Unmarshal` returns no error and leaves the pointer nil, and both reads panic on
the first field access: neither an error diagnostic nor a state is produced. -/
theorem read_null_body_panics :
    json.UnmarshalDiscoveryDocument "null" = .ok none
    ∧ json.UnmarshalJWKSDocument "null" = .ok none
    ∧ DocumentDataSource.Read (exampleEnv 200 "null")
        (documentRequest "https://accounts.google.com")
        (emptyResponse DocumentDataSourceModel)
      = ⟨["https://accounts.google.com/.well-known/openid-configuration"], .panicked⟩
    ∧ JWKSDataSource.Read (exampleEnv 200 "null")
        (jwksRequest "https://www.googleapis.com/oauth2/v3/certs")
        (emptyResponse JWKSDataSourceModel)
      = ⟨["https://www.googleapis.com/oauth2/v3/certs"], .panicked⟩ :=
  ⟨by rfl, by rfl, by rfl, by rfl⟩

/-- Claim C10.  Neither read looks at the status code.  If the network is replaced by
one that answers the request with a response of the same body (the same result of
reading the body) and any status code, the whole run is the same: the same request,
the same diagnostics, the same state.  In particular a response of any status code
whose body decodes to a discovery document makes `DocumentDataSource.Read` return
with the state set and no diagnostic added. -/
theorem read_ignores_status_code (env : Env) (g : String → Except GoError http.Response) :
    (∀ (req : datasource.ReadRequest DocumentDataSourceModel)
        (resp : datasource.ReadResponse DocumentDataSourceModel) (r1 r2 : http.Response),
        env.httpGet (req.Config.data.DiscoveryURL.ValueString
          ++ "/.well-known/openid-configuration") = .ok r1 →
        g (req.Config.data.DiscoveryURL.ValueString
          ++ "/.well-known/openid-configuration") = .ok r2 →
        r1.Body = r2.Body →
        DocumentDataSource.Read { env with httpGet := g } req resp
          = DocumentDataSource.Read env req resp)
    ∧ (∀ (req : datasource.ReadRequest JWKSDataSourceModel)
        (resp : datasource.ReadResponse JWKSDataSourceModel) (r1 r2 : http.Response),
        env.httpGet req.Config.data.JWKSURI.ValueString = .ok r1 →
        g req.Config.data.JWKSURI.ValueString = .ok r2 →
        r1.Body = r2.Body →
        JWKSDataSource.Read { env with httpGet := g } req resp
          = JWKSDataSource.Read env req resp)
    ∧ (∀ (req : datasource.ReadRequest DocumentDataSourceModel)
        (resp : datasource.ReadResponse DocumentDataSourceModel) (code : Nat) (b : String)
        (doc : DiscoveryDocument),
        (resp.Diagnostics.Append req.Config.diags).HasError = false →
        env.httpGet (req.Config.data.DiscoveryURL.ValueString
          ++ "/.well-known/openid-configuration") = .ok ⟨code, .ok b⟩ →
        json.UnmarshalDiscoveryDocument b = .ok (some doc) →
        ∃ st, (DocumentDataSource.Read env req resp).outcome
          = .returned ⟨some st, resp.Diagnostics.Append req.Config.diags⟩) := by
  refine ⟨?_, ?_, ?_⟩
  · intro req resp r1 r2 h1 h2 hb
    have h2e : ({ env with httpGet := g } : Env).httpGet
        (req.Config.data.DiscoveryURL.ValueString ++ "/.well-known/openid-configuration")
        = .ok r2 := h2
    cases hcfg : (resp.Diagnostics.Append req.Config.diags).HasError with
    | true =>
      rw [DocumentDataSource.read_document_config_error _ req resp hcfg,
        DocumentDataSource.read_document_config_error env req resp hcfg]
    | false =>
      cases hbody : r1.Body with
      | error e =>
        rw [DocumentDataSource.read_document_body_error _ req resp r2 e hcfg h2e (hb ▸ hbody),
          DocumentDataSource.read_document_body_error env req resp r1 e hcfg h1 hbody]
      | ok b =>
        cases hdec : json.UnmarshalDiscoveryDocument b with
        | error e =>
          rw [DocumentDataSource.read_document_decode_error _ req resp r2 b e hcfg h2e (hb ▸ hbody)
              hdec,
            DocumentDataSource.read_document_decode_error env req resp r1 b e hcfg h1 hbody hdec]
        | ok p =>
          cases p with
          | none =>
            rw [DocumentDataSource.read_document_nil _ req resp r2 b hcfg h2e (hb ▸ hbody) hdec,
              DocumentDataSource.read_document_nil env req resp r1 b hcfg h1 hbody hdec]
          | some doc =>
            rw [DocumentDataSource.read_document_decoded _ req resp r2 b doc hcfg h2e (hb ▸ hbody)
                hdec,
              DocumentDataSource.read_document_decoded env req resp r1 b doc hcfg h1 hbody hdec]
  · intro req resp r1 r2 h1 h2 hb
    have h2e : ({ env with httpGet := g } : Env).httpGet
        req.Config.data.JWKSURI.ValueString = .ok r2 := h2
    cases hcfg : (resp.Diagnostics.Append req.Config.diags).HasError with
    | true =>
      rw [JWKSDataSource.read_jwks_config_error _ req resp hcfg,
        JWKSDataSource.read_jwks_config_error env req resp hcfg]
    | false =>
      cases hbody : r1.Body with
      | error e =>
        rw [JWKSDataSource.read_jwks_body_error _ req resp r2 e hcfg h2e (hb ▸ hbody),
          JWKSDataSource.read_jwks_body_error env req resp r1 e hcfg h1 hbody]
      | ok b =>
        cases hdec : json.UnmarshalJWKSDocument b with
        | error e =>
          rw [JWKSDataSource.read_jwks_decode_error _ req resp r2 b e hcfg h2e (hb ▸ hbody) hdec,
            JWKSDataSource.read_jwks_decode_error env req resp r1 b e hcfg h1 hbody hdec]
        | ok p =>
          cases p with
          | none =>
            rw [JWKSDataSource.read_jwks_nil _ req resp r2 b hcfg h2e (hb ▸ hbody) hdec,
              JWKSDataSource.read_jwks_nil env req resp r1 b hcfg h1 hbody hdec]
          | some doc =>
            rw [JWKSDataSource.read_jwks_decoded _ req resp r2 b doc hcfg h2e (hb ▸ hbody) hdec,
              JWKSDataSource.read_jwks_decoded env req resp r1 b doc hcfg h1 hbody hdec]
  · intro req resp code b doc hcfg hget hdec
    rw [DocumentDataSource.read_document_decoded env req resp ⟨code, .ok b⟩ b doc hcfg hget rfl hdec]
    exact ⟨_, rfl⟩

/-- The discovery document served with status 404 instead of 200: the run is the
same, and it is a successful read. -/
theorem read_ignores_status_code_witness :
    DocumentDataSource.Read
        { exampleEnv 200 exampleDiscovery with
          httpGet := fun _ => .ok ⟨404, .ok exampleDiscovery⟩ }
        (documentRequest "https://accounts.google.com")
        (emptyResponse DocumentDataSourceModel)
      = DocumentDataSource.Read (exampleEnv 200 exampleDiscovery)
        (documentRequest "https://accounts.google.com")
        (emptyResponse DocumentDataSourceModel)
    ∧ JWKSDataSource.Read
        { exampleEnv 200 exampleJWKS with httpGet := fun _ => .ok ⟨500, .ok exampleJWKS⟩ }
        (jwksRequest "https://www.googleapis.com/oauth2/v3/certs")
        (emptyResponse JWKSDataSourceModel)
      = JWKSDataSource.Read (exampleEnv 200 exampleJWKS)
        (jwksRequest "https://www.googleapis.com/oauth2/v3/certs")
        (emptyResponse JWKSDataSourceModel)
    ∧ ∃ st, (DocumentDataSource.Read (exampleEnv 404 exampleDiscovery)
          (documentRequest "https://accounts.google.com")
          (emptyResponse DocumentDataSourceModel)).outcome = .returned ⟨some st, []⟩ :=
  ⟨(read_ignores_status_code (exampleEnv 200 exampleDiscovery)
      (fun _ => .ok ⟨404, .ok exampleDiscovery⟩)).1
      (documentRequest "https://accounts.google.com")
      (emptyResponse DocumentDataSourceModel)
      ⟨200, .ok exampleDiscovery⟩ ⟨404, .ok exampleDiscovery⟩ (by rfl) (by rfl) (by rfl),
   (read_ignores_status_code (exampleEnv 200 exampleJWKS)
      (fun _ => .ok ⟨500, .ok exampleJWKS⟩)).2.1
      (jwksRequest "https://www.googleapis.com/oauth2/v3/certs")
      (emptyResponse JWKSDataSourceModel)
      ⟨200, .ok exampleJWKS⟩ ⟨500, .ok exampleJWKS⟩ (by rfl) (by rfl) (by rfl),
   (read_ignores_status_code (exampleEnv 404 exampleDiscovery)
      (fun _ => .ok ⟨404, .ok exampleDiscovery⟩)).2.2
      (documentRequest "https://accounts.google.com")
      (emptyResponse DocumentDataSourceModel) 404 exampleDiscovery
      ⟨"https://accounts.google.com", "https://www.googleapis.com/oauth2/v3/certs",
        some ["code", "id_token"], some ["public"], some ["RS256"], none, none,
        some ["authorization_code", "refresh_token"]⟩
      (by rfl) (by rfl) (by rfl)⟩

end WellKnownOIDC
